import Mathlib

/-!
Shallow embedding of the `so-lang` compiler front end (lexer, parser, AST,
program classifier and multi-target emitter) together with theorems checking
the repository's specification claims against it.

Sources embedded here:
* `src/so_lang.c` — the Solana-aware compiler: lexer, parser, classifier
  (`detect_solana_program`), generic emitter and `main` pipeline.
* `src/unnamed/part_001` (`so_lang_enhanced.c`) — the enhanced compiler:
  lexer with comments/escapes, parser with functions and blocks, two-pass
  generic emitter with the `in_function` global.
* `src/so_lang_solana.h` — the Solana emitter (`solana_compiler_compile`).

Modelling conventions:
* C strings become `String`/`List Char`; the fixed `char[MAX_TOKEN_LEN]`
  buffers become lists, with every bounds check of the source reproduced.
* The C scan/parse loops advance a cursor; here each loop is a recursion.
  Loops that provably consume input still take an explicit fuel argument so
  that every definition is a computable total function that the kernel can
  evaluate; the entry points pass fuel larger than the input, and loops the
  C source can genuinely fail to exit (the parser's statement loop) are
  proved stuck for *every* fuel.
* Global mutable state (`has_error`, `in_function`, `instruction_count`) is
  threaded explicitly through the corresponding functions.
-/

namespace SoLang

/-! ## C character classification (ASCII / C locale, as used via `<ctype.h>`) -/

def c_isspace (c : Char) : Bool :=
  c = ' ' || c = '\t' || c = '\n' || c = '\x0b' || c = '\x0c' || c = '\r'

def c_isdigit (c : Char) : Bool := '0' ≤ c && c ≤ '9'

def c_isalpha (c : Char) : Bool := ('a' ≤ c && c ≤ 'z') || ('A' ≤ c && c ≤ 'Z')

def c_isalnum (c : Char) : Bool := c_isalpha c || c_isdigit c

/-- Characters continuing an identifier: `isalnum(c) || c == '_'`. -/
def isIdentChar (c : Char) : Bool := c_isalnum c || c = '_'

/-! ## Tokens (`so_lang.h`)

The merged token enum of `src/so_lang.h` (generic tokens) and the Solana
additions used by `src/so_lang.c`. -/

def MAX_TOKEN_LEN : Nat := 256
def MAX_TOKENS : Nat := 1000

inductive TokenType : Type where
  | TOKEN_EOF | TOKEN_LET | TOKEN_FN | TOKEN_IF | TOKEN_ELSE | TOKEN_RETURN
  | TOKEN_PRINT | TOKEN_IDENTIFIER | TOKEN_NUMBER | TOKEN_STRING
  | TOKEN_ASSIGN | TOKEN_PLUS | TOKEN_MINUS | TOKEN_MULTIPLY | TOKEN_DIVIDE
  | TOKEN_EQUAL | TOKEN_NOT_EQUAL | TOKEN_LESS | TOKEN_GREATER
  | TOKEN_LPAREN | TOKEN_RPAREN | TOKEN_LBRACE | TOKEN_RBRACE
  | TOKEN_COMMA | TOKEN_SEMICOLON | TOKEN_NEWLINE
  | TOKEN_PROGRAM | TOKEN_INSTRUCTION | TOKEN_ACCOUNT | TOKEN_STATE
  | TOKEN_PUBKEY | TOKEN_SIGNER | TOKEN_WRITABLE | TOKEN_INIT
  | TOKEN_SEEDS | TOKEN_BUMP | TOKEN_TRANSFER | TOKEN_REQUIRE | TOKEN_EMIT
  | TOKEN_AT_SYMBOL
deriving DecidableEq

structure Token where
  type : TokenType
  value : String
  line : Nat
  column : Nat
deriving DecidableEq

/-! ## Lexer state

The C `Lexer` keeps `pos/line/column`, the token array and, through the
global `has_error` set by `error()`, an error flag.  The scan position is
implicit here: the remaining input is passed as a `List Char`. -/

structure LexState where
  line : Nat
  column : Nat
  tokens : List Token
  hasError : Bool

def initLexState : LexState := { line := 1, column := 1, tokens := [], hasError := false }

/-- `error(message, line, column)`: prints to stderr and sets `has_error`. -/
def lexerror (st : LexState) : LexState := { st with hasError := true }

/-- `lexer_add_token`: refuses (with an error) once `MAX_TOKENS` tokens are
stored; otherwise appends the token, `strncpy`-truncating its value to
`MAX_TOKEN_LEN - 1` characters. -/
def lexer_add_token (st : LexState) (t : TokenType) (value : List Char) : LexState :=
  if st.tokens.length ≥ MAX_TOKENS then lexerror st
  else { st with tokens :=
    st.tokens ++ [⟨t, String.mk (value.take (MAX_TOKEN_LEN - 1)), st.line, st.column⟩] }

/-- `lexer_advance` folded over a run of consumed characters: updates
line/column exactly as the C per-character advance does. -/
def advanceLC : LexState → List Char → LexState
  | st, [] => st
  | st, c :: cs =>
    advanceLC (if c = '\n' then { st with line := st.line + 1, column := 1 }
               else { st with column := st.column + 1 }) cs

/-! ## The `src/so_lang.c` lexer -/

/-- Keyword classification of `lexer_read_identifier` in `src/so_lang.c`
(the comparison runs on the truncated buffer). -/
def soKeywordType (s : String) : TokenType :=
  if s = "let" then .TOKEN_LET
  else if s = "fn" then .TOKEN_FN
  else if s = "if" then .TOKEN_IF
  else if s = "else" then .TOKEN_ELSE
  else if s = "return" then .TOKEN_RETURN
  else if s = "print" then .TOKEN_PRINT
  else if s = "program" then .TOKEN_PROGRAM
  else if s = "instruction" then .TOKEN_INSTRUCTION
  else if s = "account" then .TOKEN_ACCOUNT
  else if s = "state" then .TOKEN_STATE
  else if s = "pubkey" then .TOKEN_PUBKEY
  else if s = "signer" then .TOKEN_SIGNER
  else if s = "writable" then .TOKEN_WRITABLE
  else if s = "init" then .TOKEN_INIT
  else if s = "seeds" then .TOKEN_SEEDS
  else if s = "bump" then .TOKEN_BUMP
  else if s = "transfer" then .TOKEN_TRANSFER
  else if s = "require" then .TOKEN_REQUIRE
  else if s = "emit" then .TOKEN_EMIT
  else .TOKEN_IDENTIFIER

def soWsP (c : Char) : Bool := c_isspace c && c ≠ '\n'

def soNumP (c : Char) : Bool := c_isdigit c || c = '.'

/-- One iteration of the scan loop of `lexer_tokenize` from `src/so_lang.c`
on current character `c` with remaining input `rest`: the updated lexer
state and the input left to scan. -/
def soStep (st : LexState) (c : Char) (rest : List Char) : LexState × List Char :=
  if soWsP c then
    -- lexer_skip_whitespace
    (advanceLC st (c :: rest.takeWhile soWsP), rest.dropWhile soWsP)
  else if c = '\n' then
    -- token recorded before the newline is consumed
    (advanceLC (lexer_add_token st .TOKEN_NEWLINE ['\n']) ['\n'], rest)
  else if c = '"' then
    -- lexer_read_string: no escape handling in this copy of the lexer;
    -- an unterminated string is tolerated (token from whatever was scanned).
    -- After the scan C tests `source[pos] == '"'` (NUL at end of input):
    -- the head of the dropWhile remainder, `'\x00'` when it is empty.
    if (rest.dropWhile (· ≠ '"')).headD '\x00' = '"' then
      (lexer_add_token (advanceLC st (c :: (rest.takeWhile (· ≠ '"') ++ ['"'])))
        .TOKEN_STRING ((rest.takeWhile (· ≠ '"')).take (MAX_TOKEN_LEN - 1)),
       (rest.dropWhile (· ≠ '"')).tail)
    else
      (lexer_add_token (advanceLC st (c :: rest.takeWhile (· ≠ '"')))
        .TOKEN_STRING ((rest.takeWhile (· ≠ '"')).take (MAX_TOKEN_LEN - 1)),
       rest.dropWhile (· ≠ '"'))
  else if c_isalpha c || c = '_' then
    -- lexer_read_identifier (keyword lookup on the truncated buffer)
    (lexer_add_token (advanceLC st (c :: rest.takeWhile isIdentChar))
      (soKeywordType (String.mk ((c :: rest.takeWhile isIdentChar).take (MAX_TOKEN_LEN - 1))))
      ((c :: rest.takeWhile isIdentChar).take (MAX_TOKEN_LEN - 1)),
     rest.dropWhile isIdentChar)
  else if c_isdigit c then
    -- lexer_read_number: digits and any number of decimal points
    (lexer_add_token (advanceLC st (c :: rest.takeWhile soNumP)) .TOKEN_NUMBER
      ((c :: rest.takeWhile soNumP).take (MAX_TOKEN_LEN - 1)),
     rest.dropWhile soNumP)
  else if c = '=' then
    -- C peeks `source[pos + 1] == '='` (NUL at end of input)
    if rest.headD '\x00' = '=' then
      (advanceLC (lexer_add_token (advanceLC st ['=']) .TOKEN_EQUAL ['=', '=']) ['='], rest.tail)
    else
      (advanceLC (lexer_add_token st .TOKEN_ASSIGN ['=']) ['='], rest)
  else if c = '+' then (advanceLC (lexer_add_token st .TOKEN_PLUS [c]) [c], rest)
  else if c = '-' then (advanceLC (lexer_add_token st .TOKEN_MINUS [c]) [c], rest)
  else if c = '*' then (advanceLC (lexer_add_token st .TOKEN_MULTIPLY [c]) [c], rest)
  else if c = '/' then (advanceLC (lexer_add_token st .TOKEN_DIVIDE [c]) [c], rest)
  else if c = '<' then (advanceLC (lexer_add_token st .TOKEN_LESS [c]) [c], rest)
  else if c = '>' then (advanceLC (lexer_add_token st .TOKEN_GREATER [c]) [c], rest)
  else if c = '(' then (advanceLC (lexer_add_token st .TOKEN_LPAREN [c]) [c], rest)
  else if c = ')' then (advanceLC (lexer_add_token st .TOKEN_RPAREN [c]) [c], rest)
  else if c = '\x7b' then (advanceLC (lexer_add_token st .TOKEN_LBRACE [c]) [c], rest)
  else if c = '\x7d' then (advanceLC (lexer_add_token st .TOKEN_RBRACE [c]) [c], rest)
  else if c = ',' then (advanceLC (lexer_add_token st .TOKEN_COMMA [c]) [c], rest)
  else if c = ';' then (advanceLC (lexer_add_token st .TOKEN_SEMICOLON [c]) [c], rest)
  else if c = '@' then (advanceLC (lexer_add_token st .TOKEN_AT_SYMBOL [c]) [c], rest)
  else
    -- "Unexpected character": recorded, the character is still consumed
    (advanceLC (lexerror st) [c], rest)

/-- One-shot embedding of `lexer_tokenize` from `src/so_lang.c`: iterate
`soStep` until the input is exhausted, then append the `TOKEN_EOF` token.
The fuel argument only serves totality (each iteration consumes at least
one character, so any fuel exceeding the input length is enough, see
`soTokenize_ends_eof`). -/
def soTokenize : Nat → LexState → List Char → LexState
  | 0, st, _ => st
  | _ + 1, st, [] => lexer_add_token st .TOKEN_EOF []
  | fuel + 1, st, c :: rest => soTokenize fuel (soStep st c rest).1 (soStep st c rest).2

/-- `lexer_create` + `lexer_tokenize` on a whole source text. -/
def lexSoLang (src : List Char) : LexState :=
  soTokenize (src.length + 1) initLexState src

/-! ## The `src/unnamed/part_001` (`so_lang_enhanced.c`) lexer

Differences from the `so_lang.c` copy: `//` comments are skipped, string
literals process escapes, numbers accept at most one decimal point, the
keyword table stops at the six generic keywords, and there is no `@` case. -/

def enKeywordType (s : String) : TokenType :=
  if s = "let" then .TOKEN_LET
  else if s = "fn" then .TOKEN_FN
  else if s = "if" then .TOKEN_IF
  else if s = "else" then .TOKEN_ELSE
  else if s = "return" then .TOKEN_RETURN
  else if s = "print" then .TOKEN_PRINT
  else .TOKEN_IDENTIFIER

/-- Escape translation inside `lexer_read_string` (enhanced copy); any other
character after the backslash stands for itself. -/
def escTranslate (c : Char) : Char :=
  if c = 'n' then '\n'
  else if c = 't' then '\t'
  else if c = 'r' then '\r'
  else c

/-- The scan loop of the enhanced `lexer_read_string`, from just after the
opening quote.  Returns the buffer contents and the remaining input (the
closing quote, when present, already consumed).  The bounds check
`i < MAX_TOKEN_LEN - 1` guards only the non-escape append in the C source;
the escape branch appends unconditionally (the fixed-size C buffer can
overflow there — a memory-safety defect outside this embedding; the token
built from the buffer is truncated by `lexer_add_token` regardless).
A backslash as the very last character makes the C code append the NUL
terminator itself to the buffer, which a later `strncpy` treats as the end
of the string, so the model appends nothing for it. -/
def enReadString : List Char → List Char → List Char × List Char
  | [], acc => (acc, [])
  | '"' :: r, acc => (acc, r)
  | '\\' :: r, acc =>
    match r with
    | [] => (acc, [])
    | e :: r2 => enReadString r2 (acc ++ [escTranslate e])
  | ch :: r, acc =>
    enReadString r (if acc.length < MAX_TOKEN_LEN - 1 then acc ++ [ch] else acc)

/-- The scan loop of the enhanced `lexer_read_number`: digits plus at most
one `.`; the bound check caps the buffer, scanning continues regardless. -/
def enReadNumber : List Char → Bool → List Char → List Char × List Char
  | [], _, acc => (acc, [])
  | c :: r, hasDot, acc =>
    if c_isdigit c || (c = '.' && !hasDot) then
      enReadNumber r (hasDot || c = '.')
        (if acc.length < MAX_TOKEN_LEN - 1 then acc ++ [c] else acc)
    else (acc, c :: r)

/-- Raw characters consumed by `enReadString` (for line/column tracking):
input minus what it returned unconsumed. -/
def consumedOf (input rest : List Char) : List Char :=
  input.take (input.length - rest.length)

/-- One iteration of the scan loop of `lexer_tokenize` from
`so_lang_enhanced.c`. -/
def enStep (st : LexState) (c : Char) (rest : List Char) : LexState × List Char :=
  if soWsP c then
    (advanceLC st (c :: rest.takeWhile soWsP), rest.dropWhile soWsP)
  else if c = '/' && rest.headD '\x00' = '/' then
    -- lexer_skip_comment: up to but not including the newline
    (advanceLC st (c :: rest.takeWhile (· ≠ '\n')), rest.dropWhile (· ≠ '\n'))
  else if c = '\n' then
    (advanceLC (lexer_add_token st .TOKEN_NEWLINE ['\n']) ['\n'], rest)
  else if c = '"' then
    (lexer_add_token (advanceLC st (c :: consumedOf rest (enReadString rest []).2))
      .TOKEN_STRING ((enReadString rest []).1.take (MAX_TOKEN_LEN - 1)),
     (enReadString rest []).2)
  else if c_isalpha c || c = '_' then
    (lexer_add_token (advanceLC st (c :: rest.takeWhile isIdentChar))
      (enKeywordType (String.mk ((c :: rest.takeWhile isIdentChar).take (MAX_TOKEN_LEN - 1))))
      ((c :: rest.takeWhile isIdentChar).take (MAX_TOKEN_LEN - 1)),
     rest.dropWhile isIdentChar)
  else if c_isdigit c then
    (lexer_add_token (advanceLC st (consumedOf (c :: rest) (enReadNumber (c :: rest) false []).2))
      .TOKEN_NUMBER ((enReadNumber (c :: rest) false []).1.take (MAX_TOKEN_LEN - 1)),
     (enReadNumber (c :: rest) false []).2)
  else if c = '=' then
    -- C peeks `source[pos + 1] == '='` (NUL at end of input)
    if rest.headD '\x00' = '=' then
      (advanceLC (lexer_add_token (advanceLC st ['=']) .TOKEN_EQUAL ['=', '=']) ['='], rest.tail)
    else
      (advanceLC (lexer_add_token st .TOKEN_ASSIGN ['=']) ['='], rest)
  else if c = '+' then (advanceLC (lexer_add_token st .TOKEN_PLUS [c]) [c], rest)
  else if c = '-' then (advanceLC (lexer_add_token st .TOKEN_MINUS [c]) [c], rest)
  else if c = '*' then (advanceLC (lexer_add_token st .TOKEN_MULTIPLY [c]) [c], rest)
  else if c = '/' then (advanceLC (lexer_add_token st .TOKEN_DIVIDE [c]) [c], rest)
  else if c = '<' then (advanceLC (lexer_add_token st .TOKEN_LESS [c]) [c], rest)
  else if c = '>' then (advanceLC (lexer_add_token st .TOKEN_GREATER [c]) [c], rest)
  else if c = '(' then (advanceLC (lexer_add_token st .TOKEN_LPAREN [c]) [c], rest)
  else if c = ')' then (advanceLC (lexer_add_token st .TOKEN_RPAREN [c]) [c], rest)
  else if c = '\x7b' then (advanceLC (lexer_add_token st .TOKEN_LBRACE [c]) [c], rest)
  else if c = '\x7d' then (advanceLC (lexer_add_token st .TOKEN_RBRACE [c]) [c], rest)
  else if c = ',' then (advanceLC (lexer_add_token st .TOKEN_COMMA [c]) [c], rest)
  else if c = ';' then (advanceLC (lexer_add_token st .TOKEN_SEMICOLON [c]) [c], rest)
  else
    (advanceLC (lexerror st) [c], rest)

/-- Embedding of `lexer_tokenize` from `so_lang_enhanced.c`. -/
def enTokenize : Nat → LexState → List Char → LexState
  | 0, st, _ => st
  | _ + 1, st, [] => lexer_add_token st .TOKEN_EOF []
  | fuel + 1, st, c :: rest => enTokenize fuel (enStep st c rest).1 (enStep st c rest).2

/-- The enhanced lexer on a whole source text. -/
def lexEnhanced (src : List Char) : LexState :=
  enTokenize (src.length + 1) initLexState src

/-! ## AST (`so_lang.h`)

One tagged node type for both the generic and the chain-extension kinds, as
in `src/src/so_lang.h`'s `NodeType`.  A node carries the fixed child slots
of the C `ASTNode` struct; `NULL` pointers become `none`. -/

inductive NodeType : Type where
  | NODE_PROGRAM | NODE_VAR_DECL | NODE_FUNC_DECL | NODE_IF_STMT
  | NODE_RETURN_STMT | NODE_PRINT_STMT | NODE_BINARY_OP | NODE_IDENTIFIER
  | NODE_NUMBER | NODE_STRING | NODE_FUNC_CALL
  | NODE_PROGRAM_DECL | NODE_INSTRUCTION_DECL | NODE_ACCOUNT_CONSTRAINT
  | NODE_TRANSFER_STMT | NODE_REQUIRE_STMT | NODE_EMIT_STMT
  | NODE_ACCOUNT_DECL | NODE_STATE_DECL
deriving DecidableEq

inductive ASTNode : Type where
  | mk (ntype : NodeType) (value : String)
       (left right condition then_branch else_branch : Option ASTNode)
       (children : List ASTNode)

def ASTNode.ntype : ASTNode → NodeType
  | .mk t _ _ _ _ _ _ _ => t

def ASTNode.value : ASTNode → String
  | .mk _ v _ _ _ _ _ _ => v

def ASTNode.children : ASTNode → List ASTNode
  | .mk _ _ _ _ _ _ _ ch => ch

/-- A node as `ast_create_node` leaves it, with a value copied in. -/
def leafNode (t : NodeType) (v : String) : ASTNode :=
  .mk t v none none none none none []

/-! ## The `src/unnamed/part_001` parser

`Parser` keeps a cursor into the token array; `parser_current_token` clamps
reads to the last token and `parser_advance` never moves past it.  The
C parse loops can fail to make progress (nothing in `parser_parse_statement`
consumes a stray `}`), so every loop and every recursive parse function
takes explicit fuel; `none` from the top loop means the fuel ran out, i.e.
the C loop was still running after that many iterations. -/

/-- `parser_current_token`: out-of-range reads yield the last token (the C
code indexes `tokens[token_count - 1]`; an empty token array would be
undefined behavior there, the default below keeps the model total). -/
def currentToken (ts : List Token) (pos : Nat) : Token :=
  if h : pos < ts.length then ts[pos] else ts.getLastD ⟨.TOKEN_EOF, "", 0, 0⟩

/-- `parser_advance`: moves forward except at the last token. -/
def advancePos (ts : List Token) (pos : Nat) : Nat :=
  if pos < ts.length - 1 then pos + 1 else pos

/-- `parser_match`: conditional advance. -/
def matchTok (ts : List Token) (pos : Nat) (t : TokenType) : Bool × Nat :=
  if (currentToken ts pos).type = t then (true, advancePos ts pos) else (false, pos)

/-- The argument/parameter skipping loop (`while cur != ')' && cur != EOF
advance`), appearing verbatim both in `parser_parse_primary` (call
arguments) and `parser_parse_function` (parameters). -/
def skipCallArgs : Nat → List Token → Nat → Nat
  | 0, _, pos => pos
  | fuel + 1, ts, pos =>
    let t := (currentToken ts pos).type
    if t ≠ .TOKEN_RPAREN && t ≠ .TOKEN_EOF then skipCallArgs fuel ts (advancePos ts pos)
    else pos

/-- The statement-terminator loop: `while (match NEWLINE || match SEMICOLON)`. -/
def skipTerminators : Nat → List Token → Nat → Nat
  | 0, _, pos => pos
  | fuel + 1, ts, pos =>
    let t := (currentToken ts pos).type
    if t = .TOKEN_NEWLINE || t = .TOKEN_SEMICOLON then skipTerminators fuel ts (advancePos ts pos)
    else pos

/-- Operator tokens accepted by `parser_parse_binary`. -/
def isBinaryOpType (t : TokenType) : Bool :=
  t = .TOKEN_PLUS || t = .TOKEN_MINUS || t = .TOKEN_MULTIPLY || t = .TOKEN_DIVIDE ||
  t = .TOKEN_EQUAL || t = .TOKEN_LESS || t = .TOKEN_GREATER

mutual

/-- `parser_parse_primary` (enhanced copy, with the call-argument skip). -/
def parser_parse_primary : Nat → List Token → Nat → Option ASTNode × Nat
  | 0, _, pos => (none, pos)
  | fuel + 1, ts, pos =>
    let tok := currentToken ts pos
    if tok.type = .TOKEN_NUMBER then
      (some (leafNode .NODE_NUMBER tok.value), advancePos ts pos)
    else if tok.type = .TOKEN_STRING then
      (some (leafNode .NODE_STRING tok.value), advancePos ts pos)
    else if tok.type = .TOKEN_IDENTIFIER then
      let pos1 := advancePos ts pos
      if (currentToken ts pos1).type = .TOKEN_LPAREN then
        let pos2 := advancePos ts pos1
        let pos3 := skipCallArgs fuel ts pos2
        (some (leafNode .NODE_FUNC_CALL tok.value), (matchTok ts pos3 .TOKEN_RPAREN).2)
      else
        (some (leafNode .NODE_IDENTIFIER tok.value), pos1)
    else if tok.type = .TOKEN_LPAREN then
      let pos1 := advancePos ts pos
      let (node, pos2) := parser_parse_expression fuel ts pos1
      (node, (matchTok ts pos2 .TOKEN_RPAREN).2)
    else
      (none, pos)
termination_by structural fuel _ _ => fuel

/-- `parser_parse_binary`: one primary, then at most one operator with a
primary on its right. -/
def parser_parse_binary : Nat → List Token → Nat → Option ASTNode × Nat
  | 0, _, pos => (none, pos)
  | fuel + 1, ts, pos =>
    let p := parser_parse_primary fuel ts pos
    let op := currentToken ts p.2
    if isBinaryOpType op.type then
      let q := parser_parse_primary fuel ts (advancePos ts p.2)
      (some (.mk .NODE_BINARY_OP op.value p.1 q.1 none none none []), q.2)
    else
      p
termination_by structural fuel _ _ => fuel

def parser_parse_expression : Nat → List Token → Nat → Option ASTNode × Nat
  | 0, _, pos => (none, pos)
  | fuel + 1, ts, pos => parser_parse_binary fuel ts pos
termination_by structural fuel _ _ => fuel

/-- `parser_parse_block`: `{ statement* }` into a `NODE_PROGRAM` block node
(at most 50 children are stored).  On a missing `{` the C code records a
syntax error and returns the empty block; the global error flag is not
tracked here (no claim depends on the enhanced parser's error flag). -/
def parser_parse_block : Nat → List Token → Nat → ASTNode × Nat
  | 0, _, pos => (.mk .NODE_PROGRAM "" none none none none none [], pos)
  | fuel + 1, ts, pos =>
    let (ok, p1) := matchTok ts pos .TOKEN_LBRACE
    if ok then
      let (items, p2) := blockLoop fuel ts p1 []
      (.mk .NODE_PROGRAM "" none none none none none items, (matchTok ts p2 .TOKEN_RBRACE).2)
    else
      (.mk .NODE_PROGRAM "" none none none none none [], p1)
termination_by structural fuel _ _ => fuel

def blockLoop : Nat → List Token → Nat → List ASTNode → List ASTNode × Nat
  | 0, _, pos, acc => (acc, pos)
  | fuel + 1, ts, pos, acc =>
    let t := (currentToken ts pos).type
    if t ≠ .TOKEN_RBRACE && t ≠ .TOKEN_EOF then
      let (m, p1) := matchTok ts pos .TOKEN_NEWLINE
      if m then blockLoop fuel ts p1 acc
      else
        let (stmt, p2) := parser_parse_statement fuel ts pos
        match stmt with
        | some s =>
          if acc.length < 50 then blockLoop fuel ts p2 (acc ++ [s])
          else blockLoop fuel ts p2 acc
        | none => blockLoop fuel ts p2 acc
    else (acc, pos)
termination_by structural fuel _ _ _ => fuel

/-- `parser_parse_function`: `fn IDENT (params)? block`; parameters are
scanned and discarded.  The function-name registry (`function_names`) is a
side table not read by any embedded function and is omitted. -/
def parser_parse_function : Nat → List Token → Nat → ASTNode × Nat
  | 0, _, pos => (.mk .NODE_FUNC_DECL "" none none none none none [], pos)
  | fuel + 1, ts, pos =>
    let pos1 := advancePos ts pos
    let name := currentToken ts pos1
    if name.type = .TOKEN_IDENTIFIER then
      let pos2 := advancePos ts pos1
      let (m, pos3) := matchTok ts pos2 .TOKEN_LPAREN
      let pos4 := if m then (matchTok ts (skipCallArgs fuel ts pos3) .TOKEN_RPAREN).2 else pos3
      let (body, pos5) := parser_parse_block fuel ts pos4
      (.mk .NODE_FUNC_DECL name.value (some body) none none none none [], pos5)
    else
      (.mk .NODE_FUNC_DECL "" none none none none none [], pos1)
termination_by structural fuel _ _ => fuel

/-- `parser_parse_statement` (enhanced copy). -/
def parser_parse_statement : Nat → List Token → Nat → Option ASTNode × Nat
  | 0, _, pos => (none, pos)
  | fuel + 1, ts, pos =>
    let tok := currentToken ts pos
    let res : Option ASTNode × Nat :=
      if tok.type = .TOKEN_FN then
        let (f, p1) := parser_parse_function fuel ts pos
        (some f, p1)
      else if tok.type = .TOKEN_LET then
        let pos1 := advancePos ts pos
        let name := currentToken ts pos1
        if name.type = .TOKEN_IDENTIFIER then
          let pos2 := advancePos ts pos1
          let (m, pos3) := matchTok ts pos2 .TOKEN_ASSIGN
          if m then
            let (e, pos4) := parser_parse_expression fuel ts pos3
            (some (.mk .NODE_VAR_DECL name.value none e none none none []), pos4)
          else
            (some (.mk .NODE_VAR_DECL name.value none none none none none []), pos3)
        else
          (some (.mk .NODE_VAR_DECL "" none none none none none []), pos1)
      else if tok.type = .TOKEN_PRINT then
        let pos1 := advancePos ts pos
        let (m, pos2) := matchTok ts pos1 .TOKEN_LPAREN
        if m then
          let (e, pos3) := parser_parse_expression fuel ts pos2
          (some (.mk .NODE_PRINT_STMT "" e none none none none []), (matchTok ts pos3 .TOKEN_RPAREN).2)
        else
          (some (.mk .NODE_PRINT_STMT "" none none none none none []), pos1)
      else if tok.type = .TOKEN_IF then
        let pos1 := advancePos ts pos
        let (cond, pos2) := parser_parse_expression fuel ts pos1
        let (thenB, pos3) := parser_parse_block fuel ts pos2
        let (m, pos4) := matchTok ts pos3 .TOKEN_ELSE
        if m then
          if (currentToken ts pos4).type = .TOKEN_IF then
            let (els, pos5) := parser_parse_statement fuel ts pos4
            (some (.mk .NODE_IF_STMT "" none none cond (some thenB) els []), pos5)
          else
            let (els, pos5) := parser_parse_block fuel ts pos4
            (some (.mk .NODE_IF_STMT "" none none cond (some thenB) (some els) []), pos5)
        else
          (some (.mk .NODE_IF_STMT "" none none cond (some thenB) none []), pos4)
      else if tok.type = .TOKEN_RETURN then
        let pos1 := advancePos ts pos
        let ct := (currentToken ts pos1).type
        if ct ≠ .TOKEN_NEWLINE && ct ≠ .TOKEN_SEMICOLON && ct ≠ .TOKEN_EOF then
          let (e, pos2) := parser_parse_expression fuel ts pos1
          (some (.mk .NODE_RETURN_STMT "" e none none none none []), pos2)
        else
          (some (.mk .NODE_RETURN_STMT "" none none none none none []), pos1)
      else
        parser_parse_expression fuel ts pos
    (res.1, skipTerminators fuel ts res.2)
termination_by structural fuel _ _ => fuel

/-- The top-level loop of `parser_parse` (at most 200 children stored).
`none` (only on fuel 0) marks an iteration bound that was too small. -/
def parseTopLoop : Nat → List Token → Nat → List ASTNode → Option (List ASTNode) × Nat
  | 0, _, pos, _ => (none, pos)
  | fuel + 1, ts, pos, acc =>
    if (currentToken ts pos).type = .TOKEN_EOF then (some acc, pos)
    else
      let (m, p1) := matchTok ts pos .TOKEN_NEWLINE
      if m then parseTopLoop fuel ts p1 acc
      else
        let (stmt, p2) := parser_parse_statement fuel ts pos
        match stmt with
        | some s =>
          if acc.length < 200 then parseTopLoop fuel ts p2 (acc ++ [s])
          else parseTopLoop fuel ts p2 acc
        | none => parseTopLoop fuel ts p2 acc
termination_by structural fuel _ _ _ => fuel

end

/-- `parser_parse`: runs the top-level statement loop and wraps the
collected statements in the `NODE_PROGRAM` root.  A `none` result means the
loop was still running when the fuel ran out. -/
def parser_parse (fuel : Nat) (ts : List Token) : Option ASTNode × Nat :=
  match parseTopLoop fuel ts 0 [] with
  | (some items, p) => (some (.mk .NODE_PROGRAM "" none none none none none items), p)
  | (none, p) => (none, p)

/-! ## Program classifier (`detect_solana_program`, `src/so_lang.c`)

Returns true on a chain-extension node kind, and otherwise recurses over
the `children` array only — the `left`, `right`, `condition`,
`then_branch` and `else_branch` slots are never visited.  (The side
effects on `detected_solana`/`detected_program_name` do not influence the
return value and are not modelled.) -/

def isChainKind (t : NodeType) : Bool :=
  t = .NODE_PROGRAM_DECL || t = .NODE_INSTRUCTION_DECL || t = .NODE_ACCOUNT_CONSTRAINT ||
  t = .NODE_TRANSFER_STMT || t = .NODE_REQUIRE_STMT || t = .NODE_EMIT_STMT

mutual

def detect_solana_program : ASTNode → Bool
  | .mk t _ _ _ _ _ _ ch =>
    if t = .NODE_PROGRAM_DECL then true
    else if t = .NODE_INSTRUCTION_DECL || t = .NODE_ACCOUNT_CONSTRAINT ||
            t = .NODE_TRANSFER_STMT || t = .NODE_REQUIRE_STMT || t = .NODE_EMIT_STMT then true
    else detectChildren ch

def detectChildren : List ASTNode → Bool
  | [] => false
  | n :: ns => detect_solana_program n || detectChildren ns

end

mutual

/-- Modelled from the spec: the spec's classification predicate ("contains,
anywhere in its tree (pre-order search), a node of kind `ProgramDecl`,
`InstructionDecl`, …"), searching *every* child slot, for comparison with
`detect_solana_program`. -/
def containsChainNode : ASTNode → Bool
  | .mk t _ l r c tb eb ch =>
    isChainKind t ||
    containsChainNodeOpt l || containsChainNodeOpt r || containsChainNodeOpt c ||
    containsChainNodeOpt tb || containsChainNodeOpt eb || containsChainNodeList ch

/-- Helper of `containsChainNode` for an optional slot. -/
def containsChainNodeOpt : Option ASTNode → Bool
  | none => false
  | some n => containsChainNode n

/-- Helper of `containsChainNode` for a child list. -/
def containsChainNodeList : List ASTNode → Bool
  | [] => false
  | n :: ns => containsChainNode n || containsChainNodeList ns

end

/-- Chain-kind reachability through `children` arrays only: the paths
`detect_solana_program` actually searches. -/
inductive ChainViaChildren : ASTNode → Prop where
  | here {n : ASTNode} (h : isChainKind n.ntype = true) : ChainViaChildren n
  | child {n : ASTNode} {c : ASTNode} (hc : c ∈ n.children) (h : ChainViaChildren c) :
      ChainViaChildren n

/-! ## The `src/unnamed/part_001` generic emitter

`compiler_compile_node` with the `to_rust` configuration bit and the
process-global `in_function` flag threaded as explicit state; emitted text
is accumulated as the returned string (the C code writes it to the output
`FILE*` in the same order). -/

/-- `compiler_emit_c_headers`. -/
def cHeaders : String :=
  "#include <stdio.h>\n#include <stdlib.h>\n#include <string.h>\n\n"

/-- Glue text of the `NODE_IF_STMT` case around the compiled pieces. -/
def ifText (rust : Bool) (cs thenS elseS : String) : String :=
  (if rust then "    if " else "    if (") ++ cs ++ (if rust then "" else ")") ++
    " \x7b\n" ++ thenS ++ "    \x7d" ++ elseS ++ "\n"

mutual

/-- `compiler_compile_function` (enhanced copy).  When the function node has
a body block, `in_function` is set for the body and cleared afterwards —
the C stores to the global are the returned flag. -/
def compiler_compile_function (rust : Bool) (inFn : Bool) : ASTNode → String × Bool
  | .mk _ v l _ _ _ _ _ =>
    let header := if rust then "fn " ++ v ++ "() -> i32 \x7b\n" else "int " ++ v ++ "() \x7b\n"
    let p : String × Bool :=
      match l with
      | some blk => ((compileBlockChildren rust true blk).1, false)
      | none => ("", inFn)
    let fallback := if rust then "    0\n" else "    return 0;\n"
    (header ++ p.1 ++ fallback ++ "\x7d\n\n", p.2)
termination_by n => (sizeOf n, 0)

/-- The `for (i = 0; i < func->left->child_count; i++)` loop over the
children of an already-parsed block node. -/
def compileBlockChildren (rust : Bool) (inFn : Bool) : ASTNode → String × Bool
  | .mk _ _ _ _ _ _ _ ch => compileBody rust inFn ch
termination_by n => (sizeOf n, 0)

/-- The hoist pass of the `NODE_PROGRAM` case: every `NODE_FUNC_DECL` child
is emitted as a standalone function, others are skipped. -/
def hoistFunctions (rust : Bool) (inFn : Bool) : List ASTNode → String × Bool
  | [] => ("", inFn)
  | n :: ns =>
    if n.ntype = .NODE_FUNC_DECL then
      let p := compiler_compile_function rust inFn n
      let q := hoistFunctions rust p.2 ns
      (p.1 ++ q.1, q.2)
    else hoistFunctions rust inFn ns
termination_by ns => (sizeOf ns, 0)

/-- The entry pass of the `NODE_PROGRAM` case: every child that is not a
`NODE_FUNC_DECL` is emitted in order. -/
def compileItems (rust : Bool) (inFn : Bool) : List ASTNode → String × Bool
  | [] => ("", inFn)
  | n :: ns =>
    if n.ntype = .NODE_FUNC_DECL then compileItems rust inFn ns
    else
      let p := compiler_compile_node rust inFn n
      let q := compileItems rust p.2 ns
      (p.1 ++ q.1, q.2)
termination_by ns => (sizeOf ns, 0)

/-- A function body: all children of the block, in order. -/
def compileBody (rust : Bool) (inFn : Bool) : List ASTNode → String × Bool
  | [] => ("", inFn)
  | n :: ns =>
    let p := compiler_compile_node rust inFn n
    let q := compileBody rust p.2 ns
    (p.1 ++ q.1, q.2)
termination_by ns => (sizeOf ns, 0)

/-- An `if` branch: each child preceded by the extra `"    "` the C loop
prints before compiling it. -/
def compileIndented (rust : Bool) (inFn : Bool) : List ASTNode → String × Bool
  | [] => ("", inFn)
  | n :: ns =>
    let p := compiler_compile_node rust inFn n
    let q := compileIndented rust p.2 ns
    ("    " ++ p.1 ++ q.1, q.2)
termination_by ns => (sizeOf ns, 0)

/-- The branch loop applied to the children of a branch node. -/
def compileIndentedChildren (rust : Bool) (inFn : Bool) : ASTNode → String × Bool
  | .mk _ _ _ _ _ _ _ ch => compileIndented rust inFn ch
termination_by n => (sizeOf n, 0)

/-- The else-branch emission of the `NODE_IF_STMT` case: an `else if` chain
is compiled as a whole nested statement, any other branch node by the
indented child loop. -/
def compileElseBranch (rust : Bool) (inFn : Bool) (e : ASTNode) : String × Bool :=
  if e.ntype = .NODE_IF_STMT then
    let p := compiler_compile_node rust inFn e
    (" else \x7b\n" ++ "    " ++ p.1 ++ "    \x7d", p.2)
  else
    let p := compileIndentedChildren rust inFn e
    (" else \x7b\n" ++ p.1 ++ "    \x7d", p.2)
termination_by (sizeOf e, 1)

/-- `if (node->X) compile(node->X) else fprintf("0")` — the defaulted
optional initializer/return expression. -/
def compileOptZero (rust : Bool) (inFn : Bool) : Option ASTNode → String × Bool
  | some e => compiler_compile_node rust inFn e
  | none => ("0", inFn)
termination_by o => (sizeOf o, 0)

/-- `if (node->X) compile(node->X)` — an optional expression slot that
contributes nothing when absent. -/
def compileOptExpr (rust : Bool) (inFn : Bool) : Option ASTNode → String × Bool
  | some e => compiler_compile_node rust inFn e
  | none => ("", inFn)
termination_by o => (sizeOf o, 0)

/-- The print argument: `if (node->left) { if (rust) fprintf(", ");
compile(node->left); }`. -/
def compilePrintArg (rust : Bool) (inFn : Bool) : Option ASTNode → String × Bool
  | some e =>
    let p := compiler_compile_node rust inFn e
    ((if rust then ", " else "") ++ p.1, p.2)
  | none => ("", inFn)
termination_by o => (sizeOf o, 0)

/-- `if (node->then_branch) { loop }` — the optional then block. -/
def compileOptBranch (rust : Bool) (inFn : Bool) : Option ASTNode → String × Bool
  | some b => compileIndentedChildren rust inFn b
  | none => ("", inFn)
termination_by o => (sizeOf o, 0)

/-- `if (node->else_branch) { ... }` — the optional else branch. -/
def compileOptElse (rust : Bool) (inFn : Bool) : Option ASTNode → String × Bool
  | some e => compileElseBranch rust inFn e
  | none => ("", inFn)
termination_by o => (sizeOf o, 2)

/-- `compiler_compile_node` (enhanced copy); the C `switch` on `node->type`
becomes a match on the node kind, and each `if (node->slot)` null test is
one of the option helpers above. -/
def compiler_compile_node (rust : Bool) (inFn : Bool) : ASTNode → String × Bool
  | .mk .NODE_PROGRAM _ _ _ _ _ _ ch =>
    if inFn then
      -- header, hoist pass and footer are all guarded by `!in_function`
      compileItems rust inFn ch
    else
      let p := hoistFunctions rust false ch
      let opening :=
        if rust then p.1 ++ "fn main() \x7b\n"
        else cHeaders ++ p.1 ++ "int main() \x7b\n"
      let q := compileItems rust p.2 ch
      (opening ++ q.1 ++ (if rust then "\x7d\n" else "    return 0;\n\x7d\n"), q.2)
  | .mk .NODE_FUNC_DECL _ _ _ _ _ _ _ => ("", inFn)
  | .mk .NODE_VAR_DECL v _ r _ _ _ _ =>
    let p := compileOptZero rust inFn r
    ((if rust then "    let " ++ v ++ " = " else "    int " ++ v ++ " = ") ++ p.1 ++ ";\n", p.2)
  | .mk .NODE_PRINT_STMT _ l _ _ _ _ _ =>
    let p := compilePrintArg rust inFn l
    ((if rust then "    println!(\"\x7b\x7d\"" else "    printf(\"%d\\n\", ") ++ p.1 ++ ");\n", p.2)
  | .mk .NODE_IF_STMT _ _ _ c tb eb _ =>
    let p1 := compileOptExpr rust inFn c
    let p2 := compileOptBranch rust p1.2 tb
    let p3 := compileOptElse rust p2.2 eb
    (ifText rust p1.1 p2.1 p3.1, p3.2)
  | .mk .NODE_RETURN_STMT _ l _ _ _ _ _ =>
    -- both target languages print the same "    return " prefix
    let p := compileOptZero rust inFn l
    ("    return " ++ p.1 ++ ";\n", p.2)
  | .mk .NODE_BINARY_OP v l r _ _ _ _ =>
    let p1 := compileOptExpr rust inFn l
    let p2 := compileOptExpr rust p1.2 r
    (p1.1 ++ " " ++ v ++ " " ++ p2.1, p2.2)
  | .mk .NODE_NUMBER v _ _ _ _ _ _ => (v, inFn)
  | .mk .NODE_STRING v _ _ _ _ _ _ => ("\"" ++ v ++ "\"", inFn)
  | .mk .NODE_IDENTIFIER v _ _ _ _ _ _ => (v, inFn)
  | .mk .NODE_FUNC_CALL v _ _ _ _ _ _ => (v ++ "()", inFn)
  -- the chain-extension kinds have no case in this compiler's switch
  | .mk .NODE_PROGRAM_DECL _ _ _ _ _ _ _ => ("", inFn)
  | .mk .NODE_INSTRUCTION_DECL _ _ _ _ _ _ _ => ("", inFn)
  | .mk .NODE_ACCOUNT_CONSTRAINT _ _ _ _ _ _ _ => ("", inFn)
  | .mk .NODE_TRANSFER_STMT _ _ _ _ _ _ _ => ("", inFn)
  | .mk .NODE_REQUIRE_STMT _ _ _ _ _ _ _ => ("", inFn)
  | .mk .NODE_EMIT_STMT _ _ _ _ _ _ _ => ("", inFn)
  | .mk .NODE_ACCOUNT_DECL _ _ _ _ _ _ _ => ("", inFn)
  | .mk .NODE_STATE_DECL _ _ _ _ _ _ _ => ("", inFn)
termination_by n => (sizeOf n, 0)

end

/-- `compiler_compile` (enhanced copy): one call on the root, starting from
the given `in_function` value (`false` at process start). -/
def compiler_compile (rust : Bool) (inFn : Bool) (ast : ASTNode) : String × Bool :=
  compiler_compile_node rust inFn ast

/-! ## The Solana emitter (`src/so_lang_solana.h`)

`SolanaASTNode` adds the chain-specific fields to the node struct; the
`constraint_type`, `seeds`, `seed_count` and `bump` fields are never read
by the emitter and are omitted.  `SolanaCompiler` carries `use_anchor`
(the ChainFramework/ChainRaw fork; `native_solana` is always its negation)
and the mutable `instruction_count`, threaded below as an explicit `Nat`. -/

inductive SolanaDataType : Type where
  | SOLANA_TYPE_PUBKEY | SOLANA_TYPE_LAMPORTS | SOLANA_TYPE_U64 | SOLANA_TYPE_U32
  | SOLANA_TYPE_U8 | SOLANA_TYPE_STRING | SOLANA_TYPE_BOOL
  | SOLANA_TYPE_ACCOUNT_INFO | SOLANA_TYPE_INSTRUCTION | SOLANA_TYPE_PROGRAM_ID
deriving DecidableEq

inductive SolanaASTNode : Type where
  | mk (ntype : NodeType) (value : String)
       (left right condition then_branch else_branch : Option SolanaASTNode)
       (children : List SolanaASTNode)
       (solana_type : SolanaDataType)
       (account_name instruction_name program_id : Option String)
       (is_signer is_writable is_init : Bool)

def SolanaASTNode.ntype : SolanaASTNode → NodeType
  | .mk t _ _ _ _ _ _ _ _ _ _ _ _ _ _ => t

def SolanaASTNode.value : SolanaASTNode → String
  | .mk _ v _ _ _ _ _ _ _ _ _ _ _ _ _ => v

def SolanaASTNode.left : SolanaASTNode → Option SolanaASTNode
  | .mk _ _ l _ _ _ _ _ _ _ _ _ _ _ _ => l

def SolanaASTNode.children : SolanaASTNode → List SolanaASTNode
  | .mk _ _ _ _ _ _ _ ch _ _ _ _ _ _ _ => ch

def SolanaASTNode.solana_type : SolanaASTNode → SolanaDataType
  | .mk _ _ _ _ _ _ _ _ s _ _ _ _ _ _ => s

def SolanaASTNode.account_name : SolanaASTNode → Option String
  | .mk _ _ _ _ _ _ _ _ _ a _ _ _ _ _ => a

def SolanaASTNode.instruction_name : SolanaASTNode → Option String
  | .mk _ _ _ _ _ _ _ _ _ _ i _ _ _ _ => i

def SolanaASTNode.program_id : SolanaASTNode → Option String
  | .mk _ _ _ _ _ _ _ _ _ _ _ p _ _ _ => p

def SolanaASTNode.is_signer : SolanaASTNode → Bool
  | .mk _ _ _ _ _ _ _ _ _ _ _ _ s _ _ => s

def SolanaASTNode.is_writable : SolanaASTNode → Bool
  | .mk _ _ _ _ _ _ _ _ _ _ _ _ _ w _ => w

def SolanaASTNode.is_init : SolanaASTNode → Bool
  | .mk _ _ _ _ _ _ _ _ _ _ _ _ _ _ i => i

/-- `printf("%s", p)` on a possibly-NULL `char*`: glibc prints `(null)`. -/
def fmtCStr : Option String → String
  | some s => s
  | none => "(null)"

/-- `emit_anchor_imports`. -/
def anchorImports : String :=
  "use anchor_lang::prelude::*;\n" ++
  "use anchor_spl::token::\x7bself, Token, TokenAccount, Mint\x7d;\n" ++
  "use anchor_spl::associated_token::AssociatedToken;\n" ++
  "\n"

/-- `emit_native_solana_imports`. -/
def nativeSolanaImports : String :=
  "use solana_program::\x7b\n" ++
  "    account_info::\x7bnext_account_info, AccountInfo\x7d,\n" ++
  "    entrypoint,\n" ++
  "    entrypoint::ProgramResult,\n" ++
  "    msg,\n" ++
  "    program_error::ProgramError,\n" ++
  "    pubkey::Pubkey,\n" ++
  "    system_instruction,\n" ++
  "    program::\x7binvoke, invoke_signed\x7d,\n" ++
  "\x7d;\n" ++
  "\n"

/-- `emit_program_structure`. -/
def emit_program_structure (anchor : Bool) (program : SolanaASTNode) : String :=
  if anchor then
    "#[program]\n" ++ "pub mod " ++ program.value ++ " \x7b\n" ++ "    use super::*;\n\n" ++
    (match program.program_id with
     | some id => "    declare_id!(\"" ++ id ++ "\");\n\n"
     | none => "")
  else
    "entrypoint!(process_instruction);\n\n" ++
    (match program.program_id with
     | some id => "declare_id!(\"" ++ id ++ "\");\n\n"
     | none => "") ++
    "pub fn process_instruction(\n" ++
    "    program_id: &Pubkey,\n" ++
    "    accounts: &[AccountInfo],\n" ++
    "    instruction_data: &[u8],\n" ++
    ") -> ProgramResult \x7b\n"

/-- The `Account<'info, _>` type of one field in `emit_account_validation`. -/
def accountTypeStr (t : SolanaDataType) : String :=
  match t with
  | .SOLANA_TYPE_PUBKEY => "Pubkey"
  | .SOLANA_TYPE_ACCOUNT_INFO => "AccountInfo"
  | _ => "AccountInfo"

/-- `emit_account_validation`: the per-instruction context struct; fields in
declaration order of the account list; emits nothing for the raw target. -/
def emit_account_validation (anchor : Bool) (accounts : SolanaASTNode) : String :=
  if anchor then
    "#[derive(Accounts)]\n" ++
    "pub struct " ++ fmtCStr accounts.instruction_name ++ "Context<'info> \x7b\n" ++
    String.join (accounts.children.map fun account =>
      "    #[account(" ++
      (if account.is_signer then "signer, " else "") ++
      (if account.is_writable then "mut, " else "") ++
      (if account.is_init then "init, payer = payer, space = 8 + 32, " else "") ++
      ")]\n" ++
      "    pub " ++ fmtCStr account.account_name ++ ": Account<'info, " ++
      accountTypeStr account.solana_type ++ ">,\n") ++
    "\x7d\n\n"
  else ""

/-- Field-type table of `emit_state_structure`. -/
def stateTypeStr (t : SolanaDataType) : String :=
  match t with
  | .SOLANA_TYPE_PUBKEY => "Pubkey"
  | .SOLANA_TYPE_U64 => "u64"
  | .SOLANA_TYPE_U32 => "u32"
  | .SOLANA_TYPE_BOOL => "bool"
  | .SOLANA_TYPE_STRING => "String"
  | _ => "u64"

/-- `emit_state_structure`: the plain data-record type, fields in
declaration order. -/
def emit_state_structure (anchor : Bool) (state : SolanaASTNode) : String :=
  (if anchor then "#[account]\n" else "") ++
  "#[derive(Clone, Debug, PartialEq)]\n" ++
  "pub struct " ++ state.value ++ " \x7b\n" ++
  String.join (state.children.map fun field =>
    "    pub " ++ field.value ++ ": " ++ stateTypeStr field.solana_type ++ ",\n") ++
  "\x7d\n\n"

/-- `emit_error_types` (anchor only; emitted by no caller in the source,
included for completeness). -/
def emit_error_types (anchor : Bool) : String :=
  if anchor then
    "#[error_code]\n" ++ "pub enum ErrorCode \x7b\n" ++
    "    #[msg(\"Custom error message\")]\n" ++ "    CustomError,\n" ++ "\x7d\n\n"
  else ""

/-- The generic `compiler_compile_node` of `src/so_lang.c` as the Solana
compiler's default case reaches it through the `(Compiler*)compiler` cast.
Under that cast the generic `to_rust` field aliases `use_anchor` (both at
byte offset 8).  Only the cases whose output is independent of the other
(padding-aliased, hence indeterminate) `Compiler` fields are given their
text: expression nodes, `NODE_VAR_DECL`, `NODE_PRINT_STMT` and the empty
`NODE_ACCOUNT_CONSTRAINT` case.  `NODE_PROGRAM`, `NODE_PROGRAM_DECL` and
`NODE_INSTRUCTION_DECL` would read uninitialized padding bytes through the
alias (undefined behavior); they are unreachable from the Solana dispatcher,
which intercepts those kinds before its default case, and are left emitting
nothing here, like the kinds the generic switch has no case for. -/
def solanaGenCompile (toRust : Bool) : SolanaASTNode → String
  | .mk t v l r _ _ _ _ _ _ _ _ _ _ _ =>
    if t = .NODE_VAR_DECL then
      (if toRust then "    let " ++ v ++ " = " else "    int " ++ v ++ " = ") ++
      (match r with
       | some e => solanaGenCompile toRust e
       | none => "") ++ ";\n"
    else if t = .NODE_PRINT_STMT then
      (if toRust then "    println!(\"\x7b\x7d\"" else "    printf(\"%d\\n\", ") ++
      (match l with
       | some e => (if toRust then ", " else "") ++ solanaGenCompile toRust e
       | none => "") ++ ");\n"
    else if t = .NODE_BINARY_OP then
      (match l with
       | some e => solanaGenCompile toRust e
       | none => "") ++ " " ++ v ++ " " ++
      (match r with
       | some e => solanaGenCompile toRust e
       | none => "")
    else if t = .NODE_NUMBER then v
    else if t = .NODE_STRING then "\"" ++ v ++ "\""
    else if t = .NODE_IDENTIFIER then v
    else ""

/-- `NODE_TRANSFER_STMT` text (fixed in both branches). -/
def transferText (anchor : Bool) : String :=
  if anchor then
    "        token::transfer(\n" ++
    "            CpiContext::new(\n" ++
    "                ctx.accounts.token_program.to_account_info(),\n" ++
    "                token::Transfer \x7b\n" ++
    "                    from: ctx.accounts.from.to_account_info(),\n" ++
    "                    to: ctx.accounts.to.to_account_info(),\n" ++
    "                    authority: ctx.accounts.authority.to_account_info(),\n" ++
    "                \x7d,\n" ++
    "            ),\n" ++
    "            amount,\n" ++
    "        )?;\n"
  else
    "            let instruction = system_instruction::transfer(\n" ++
    "                from.key,\n" ++
    "                to.key,\n" ++
    "                amount,\n" ++
    "            );\n" ++
    "            invoke(&instruction, &[from.clone(), to.clone()])?;\n"

mutual

/-- `emit_instruction_handler`: framework handler or raw dispatch arm; in
both branches `instruction_count` is read before the body and incremented
after it.  (The C function receives the instruction node; here it receives
the two fields it reads, `left` and `instruction_name`, so that the mutual
recursion stays structural.) -/
def emit_instruction_handler (anchor : Bool) (cnt : Nat)
    (l : Option SolanaASTNode) (iname : Option String) : String × Nat :=
    if anchor then
      let p : String × Nat :=
        match l with
        | some b =>
          let q := solana_compiler_compile anchor cnt b
          ("        // Generated instruction logic\n" ++ q.1, q.2)
        | none => ("", cnt)
      ("    pub fn " ++ fmtCStr iname ++ "(ctx: Context<" ++ fmtCStr iname ++
        "Context>) -> Result<()> \x7b\n" ++ p.1 ++ "        Ok(())\n    \x7d\n\n", p.2 + 1)
    else
      let p : String × Nat :=
        match l with
        | some b => solana_compiler_compile anchor cnt b
        | none => ("", cnt)
      ("    match instruction_data[0] \x7b\n" ++
       "        " ++ toString cnt ++ " => \x7b\n" ++
       "            msg!(\"Executing " ++ fmtCStr iname ++ "\");\n" ++
       p.1 ++
       "        \x7d,\n" ++
       "    \x7d\n", p.2 + 1)

/-- The child loop of the `NODE_PROGRAM_DECL` case, threading
`instruction_count` left to right. -/
def solanaCompileChildren (anchor : Bool) (cnt : Nat) : List SolanaASTNode → String × Nat
  | [] => ("", cnt)
  | n :: ns =>
    let p := solana_compiler_compile anchor cnt n
    let q := solanaCompileChildren anchor p.2 ns
    (p.1 ++ q.1, q.2)

/-- The optional condition of a `require` statement (`if (ast->condition)
solana_compiler_compile(compiler, ast->condition)`). -/
def solanaCompileOptCond (anchor : Bool) (cnt : Nat) : Option SolanaASTNode → String × Nat
  | some e => solana_compiler_compile anchor cnt e
  | none => ("", cnt)

/-- `solana_compiler_compile`; the C `switch` on `ast->type` becomes a match
on the node kind. -/
def solana_compiler_compile (anchor : Bool) (cnt : Nat) : SolanaASTNode → String × Nat
  | n@(.mk .NODE_PROGRAM_DECL _ _ _ _ _ _ ch _ _ _ _ _ _ _) =>
    let imports := if anchor then anchorImports else nativeSolanaImports
    let p := solanaCompileChildren anchor cnt ch
    (imports ++ emit_program_structure anchor n ++ p.1 ++
      (if anchor then "\x7d\n" else "    Ok(())\n\x7d\n"), p.2)
  | .mk .NODE_INSTRUCTION_DECL _ l _ _ _ _ _ _ _ iname _ _ _ _ =>
    emit_instruction_handler anchor cnt l iname
  | n@(.mk .NODE_ACCOUNT_DECL _ _ _ _ _ _ _ _ _ _ _ _ _ _) =>
    (emit_account_validation anchor n, cnt)
  | n@(.mk .NODE_STATE_DECL _ _ _ _ _ _ _ _ _ _ _ _ _ _) =>
    (emit_state_structure anchor n, cnt)
  | .mk .NODE_TRANSFER_STMT _ _ _ _ _ _ _ _ _ _ _ _ _ _ =>
    (transferText anchor, cnt)
  | .mk .NODE_REQUIRE_STMT _ _ _ c _ _ _ _ _ _ _ _ _ _ =>
    let p := solanaCompileOptCond anchor cnt c
    if anchor then
      ("        require!(" ++ p.1 ++ ", ErrorCode::CustomError);\n", p.2)
    else
      ("            if !(" ++ p.1 ++ ") \x7b\n" ++
       "                return Err(ProgramError::InvalidArgument);\n" ++
       "            \x7d\n", p.2)
  | .mk .NODE_PRINT_STMT _ l _ _ _ _ _ _ _ _ _ _ _ _ =>
    ("        msg!(\"" ++ (if l.isSome then "Debug: \x7b\x7d\"" else "") ++ ");\n", cnt)
  -- default: `compiler_compile_node((Compiler*)compiler, (ASTNode*)ast)`
  | n@(.mk .NODE_PROGRAM _ _ _ _ _ _ _ _ _ _ _ _ _ _) => (solanaGenCompile anchor n, cnt)
  | n@(.mk .NODE_VAR_DECL _ _ _ _ _ _ _ _ _ _ _ _ _ _) => (solanaGenCompile anchor n, cnt)
  | n@(.mk .NODE_FUNC_DECL _ _ _ _ _ _ _ _ _ _ _ _ _ _) => (solanaGenCompile anchor n, cnt)
  | n@(.mk .NODE_IF_STMT _ _ _ _ _ _ _ _ _ _ _ _ _ _) => (solanaGenCompile anchor n, cnt)
  | n@(.mk .NODE_RETURN_STMT _ _ _ _ _ _ _ _ _ _ _ _ _ _) => (solanaGenCompile anchor n, cnt)
  | n@(.mk .NODE_BINARY_OP _ _ _ _ _ _ _ _ _ _ _ _ _ _) => (solanaGenCompile anchor n, cnt)
  | n@(.mk .NODE_IDENTIFIER _ _ _ _ _ _ _ _ _ _ _ _ _ _) => (solanaGenCompile anchor n, cnt)
  | n@(.mk .NODE_NUMBER _ _ _ _ _ _ _ _ _ _ _ _ _ _) => (solanaGenCompile anchor n, cnt)
  | n@(.mk .NODE_STRING _ _ _ _ _ _ _ _ _ _ _ _ _ _) => (solanaGenCompile anchor n, cnt)
  | n@(.mk .NODE_FUNC_CALL _ _ _ _ _ _ _ _ _ _ _ _ _ _) => (solanaGenCompile anchor n, cnt)
  | n@(.mk .NODE_ACCOUNT_CONSTRAINT _ _ _ _ _ _ _ _ _ _ _ _ _ _) => (solanaGenCompile anchor n, cnt)
  | n@(.mk .NODE_EMIT_STMT _ _ _ _ _ _ _ _ _ _ _ _ _ _) => (solanaGenCompile anchor n, cnt)

end

/-! ## The `src/so_lang.c` parser and `main` pipeline

This parser differs from the enhanced one: no `fn` case, a call's argument
list is not skipped (only a `)` is matched), `if` branches hold a single
statement, and `program`/`instruction` statements dispatch to
`parser_parse_program_declaration` / `parser_parse_instruction_declaration`
— functions this repository only declares (`src/so_lang.c:420-422`) and
never defines.  Those two are modelled from the spec below. -/

mutual

/-- `parser_parse_primary` (`so_lang.c` copy: a call is `IDENT '(' ')'`,
nothing between the parentheses is skipped). -/
def soParsePrimary : Nat → List Token → Nat → Option ASTNode × Nat
  | 0, _, pos => (none, pos)
  | fuel + 1, ts, pos =>
    let tok := currentToken ts pos
    if tok.type = .TOKEN_NUMBER then
      (some (leafNode .NODE_NUMBER tok.value), advancePos ts pos)
    else if tok.type = .TOKEN_STRING then
      (some (leafNode .NODE_STRING tok.value), advancePos ts pos)
    else if tok.type = .TOKEN_IDENTIFIER then
      let pos1 := advancePos ts pos
      if (currentToken ts pos1).type = .TOKEN_LPAREN then
        let pos2 := advancePos ts pos1
        (some (leafNode .NODE_FUNC_CALL tok.value), (matchTok ts pos2 .TOKEN_RPAREN).2)
      else
        (some (leafNode .NODE_IDENTIFIER tok.value), pos1)
    else if tok.type = .TOKEN_LPAREN then
      let pos1 := advancePos ts pos
      let (node, pos2) := soParseExpression fuel ts pos1
      (node, (matchTok ts pos2 .TOKEN_RPAREN).2)
    else
      (none, pos)
termination_by structural fuel _ _ => fuel

/-- `parser_parse_binary` (`so_lang.c` copy; same single-operator shape as
the enhanced one). -/
def soParseBinary : Nat → List Token → Nat → Option ASTNode × Nat
  | 0, _, pos => (none, pos)
  | fuel + 1, ts, pos =>
    let p := soParsePrimary fuel ts pos
    let op := currentToken ts p.2
    if isBinaryOpType op.type then
      let q := soParsePrimary fuel ts (advancePos ts p.2)
      (some (.mk .NODE_BINARY_OP op.value p.1 q.1 none none none []), q.2)
    else
      p
termination_by structural fuel _ _ => fuel

def soParseExpression : Nat → List Token → Nat → Option ASTNode × Nat
  | 0, _, pos => (none, pos)
  | fuel + 1, ts, pos => soParseBinary fuel ts pos
termination_by structural fuel _ _ => fuel

/-- Modelled from the spec: `parser_parse_program_declaration`, which
`src/so_lang.c` declares and dispatches to but never defines.  Spec §4.2:
`program IDENT ('(' STRING ')')? '{' item* '}'` → `ProgramDecl`.  The
optional program-id string is consumed; the generic `ASTNode` embedded
here does not carry the `program_id` field (no embedded consumer reads it). -/
def soParseProgramDecl : Nat → List Token → Nat → ASTNode × Nat
  | 0, _, pos => (leafNode .NODE_PROGRAM_DECL "", pos)
  | fuel + 1, ts, pos =>
    let pos1 := advancePos ts pos
    let name := currentToken ts pos1
    let (nm, pos2) :=
      if name.type = .TOKEN_IDENTIFIER then (name.value, advancePos ts pos1) else ("", pos1)
    let (m, pos3) := matchTok ts pos2 .TOKEN_LPAREN
    let pos4 :=
      if m then
        let pos3a :=
          if (currentToken ts pos3).type = .TOKEN_STRING then advancePos ts pos3 else pos3
        (matchTok ts pos3a .TOKEN_RPAREN).2
      else pos3
    let (mb, pos5) := matchTok ts pos4 .TOKEN_LBRACE
    if mb then
      let (items, pos6) := soItemLoop fuel ts pos5 []
      (.mk .NODE_PROGRAM_DECL nm none none none none none items,
        (matchTok ts pos6 .TOKEN_RBRACE).2)
    else
      (.mk .NODE_PROGRAM_DECL nm none none none none none [], pos5)
termination_by structural fuel _ _ => fuel

/-- Modelled from the spec: `parser_parse_instruction_declaration`
(declared, dispatched to, never defined).  Spec §4.2: "`instruction` …
parsed analogously": `instruction IDENT '(' … ')' '{' item* '}'`. -/
def soParseInstructionDecl : Nat → List Token → Nat → ASTNode × Nat
  | 0, _, pos => (leafNode .NODE_INSTRUCTION_DECL "", pos)
  | fuel + 1, ts, pos =>
    let pos1 := advancePos ts pos
    let name := currentToken ts pos1
    let (nm, pos2) :=
      if name.type = .TOKEN_IDENTIFIER then (name.value, advancePos ts pos1) else ("", pos1)
    let (m, pos3) := matchTok ts pos2 .TOKEN_LPAREN
    let pos4 := if m then (matchTok ts (skipCallArgs fuel ts pos3) .TOKEN_RPAREN).2 else pos3
    let (mb, pos5) := matchTok ts pos4 .TOKEN_LBRACE
    if mb then
      let (items, pos6) := soItemLoop fuel ts pos5 []
      (.mk .NODE_INSTRUCTION_DECL nm none none none none none items,
        (matchTok ts pos6 .TOKEN_RBRACE).2)
    else
      (.mk .NODE_INSTRUCTION_DECL nm none none none none none [], pos5)
termination_by structural fuel _ _ => fuel

/-- Modelled from the spec: the `item*` loop between braces used by the two
spec-modelled declarations (statements until `}`/end, newlines skipped). -/
def soItemLoop : Nat → List Token → Nat → List ASTNode → List ASTNode × Nat
  | 0, _, pos, acc => (acc, pos)
  | fuel + 1, ts, pos, acc =>
    let t := (currentToken ts pos).type
    if t ≠ .TOKEN_RBRACE && t ≠ .TOKEN_EOF then
      let (m, p1) := matchTok ts pos .TOKEN_NEWLINE
      if m then soItemLoop fuel ts p1 acc
      else
        let (stmt, p2) := soParseStatement fuel ts pos
        match stmt with
        | some s => soItemLoop fuel ts p2 (acc ++ [s])
        | none => soItemLoop fuel ts p2 acc
    else (acc, pos)
termination_by structural fuel _ _ _ => fuel

/-- `parser_parse_statement` (`so_lang.c` copy). -/
def soParseStatement : Nat → List Token → Nat → Option ASTNode × Nat
  | 0, _, pos => (none, pos)
  | fuel + 1, ts, pos =>
    let tok := currentToken ts pos
    let res : Option ASTNode × Nat :=
      if tok.type = .TOKEN_PROGRAM then
        let (n, p1) := soParseProgramDecl fuel ts pos
        (some n, p1)
      else if tok.type = .TOKEN_INSTRUCTION then
        let (n, p1) := soParseInstructionDecl fuel ts pos
        (some n, p1)
      else if tok.type = .TOKEN_LET then
        let pos1 := advancePos ts pos
        let name := currentToken ts pos1
        if name.type = .TOKEN_IDENTIFIER then
          let pos2 := advancePos ts pos1
          let (m, pos3) := matchTok ts pos2 .TOKEN_ASSIGN
          if m then
            let (e, pos4) := soParseExpression fuel ts pos3
            (some (.mk .NODE_VAR_DECL name.value none e none none none []), pos4)
          else
            (some (.mk .NODE_VAR_DECL name.value none none none none none []), pos3)
        else
          (some (.mk .NODE_VAR_DECL "" none none none none none []), pos1)
      else if tok.type = .TOKEN_PRINT then
        let pos1 := advancePos ts pos
        let (m, pos2) := matchTok ts pos1 .TOKEN_LPAREN
        if m then
          let (e, pos3) := soParseExpression fuel ts pos2
          (some (.mk .NODE_PRINT_STMT "" e none none none none []), (matchTok ts pos3 .TOKEN_RPAREN).2)
        else
          (some (.mk .NODE_PRINT_STMT "" none none none none none []), pos1)
      else if tok.type = .TOKEN_IF then
        let pos1 := advancePos ts pos
        let (cond, pos2) := soParseExpression fuel ts pos1
        let (m, pos3) := matchTok ts pos2 .TOKEN_LBRACE
        if m then
          let (thenB, pos4) := soParseStatement fuel ts pos3
          let pos5 := (matchTok ts pos4 .TOKEN_RBRACE).2
          let (me, pos6) := matchTok ts pos5 .TOKEN_ELSE
          if me then
            let (mb, pos7) := matchTok ts pos6 .TOKEN_LBRACE
            if mb then
              let (elseB, pos8) := soParseStatement fuel ts pos7
              (some (.mk .NODE_IF_STMT "" none none cond thenB elseB []),
                (matchTok ts pos8 .TOKEN_RBRACE).2)
            else
              (some (.mk .NODE_IF_STMT "" none none cond thenB none []), pos7)
          else
            (some (.mk .NODE_IF_STMT "" none none cond thenB none []), pos6)
        else
          (some (.mk .NODE_IF_STMT "" none none cond none none []), pos3)
      else if tok.type = .TOKEN_RETURN then
        let pos1 := advancePos ts pos
        let (e, pos2) := soParseExpression fuel ts pos1
        (some (.mk .NODE_RETURN_STMT "" e none none none none []), pos2)
      else
        soParseExpression fuel ts pos
    (res.1, skipTerminators fuel ts res.2)
termination_by structural fuel _ _ => fuel

/-- The top-level loop of `parser_parse` (`so_lang.c` copy; the C code has
no bound check on the 100-slot children array — appending past 100 is a
buffer overflow there; the model appends unconditionally). -/
def soParseTop : Nat → List Token → Nat → List ASTNode → Option (List ASTNode) × Nat
  | 0, _, pos, _ => (none, pos)
  | fuel + 1, ts, pos, acc =>
    if (currentToken ts pos).type = .TOKEN_EOF then (some acc, pos)
    else
      let (stmt, p2) := soParseStatement fuel ts pos
      match stmt with
      | some s => soParseTop fuel ts p2 (acc ++ [s])
      | none => soParseTop fuel ts p2 acc
termination_by structural fuel _ _ _ => fuel

end

/-- `parser_parse` (`so_lang.c` copy). -/
def soParserParse (fuel : Nat) (ts : List Token) : Option ASTNode × Nat :=
  match soParseTop fuel ts 0 [] with
  | (some items, p) => (some (.mk .NODE_PROGRAM "" none none none none none items), p)
  | (none, p) => (none, p)

/-! ## The `main` pipeline of `src/so_lang.c` -/

structure MainResult where
  exitCode : Nat
  parserInvoked : Bool
deriving DecidableEq

/-- The `main` pipeline of `src/so_lang.c` from the point where the source
text has been read: tokenize; on any recorded lexical error free everything
and return 1 *before* `parser_create`; otherwise parse and continue.
Classification, output-file writing and reporting follow the parse; absent
an output-file `fopen` failure (I/O, not modelled) `main` then returns 0
(the embedded `so_lang.c` parse paths never set `has_error`).  A `none`
result means the parser was still looping when `fuel` ran out. -/
def so_lang_main (fuel : Nat) (src : List Char) : Option MainResult :=
  let lx := lexSoLang src
  if lx.hasError then some ⟨1, false⟩
  else
    match (soParserParse fuel lx.tokens).1 with
    | none => none
    | some _ => some ⟨0, true⟩

/-! ## Substring occurrence (for counterexample statements) -/

def startsWithChars : List Char → List Char → Bool
  | [], _ => true
  | _ :: _, [] => false
  | a :: as, b :: bs => a = b && startsWithChars as bs

def hasSubChars (needle : List Char) : List Char → Bool
  | [] => startsWithChars needle []
  | b :: bs => startsWithChars needle (b :: bs) || hasSubChars needle bs

/-- `strOccurs needle hay`: does `needle` occur contiguously in `hay`? -/
def strOccurs (needle hay : String) : Bool :=
  hasSubChars needle.data hay.data

/-! ## Remaining definitions used by the claim statements -/

/-- The newline tokens the `so_lang.c` lexer records for a run of `n`
newline characters starting on line `line` (each at column 1). -/
def nlToks : Nat → Nat → List Token
  | 0, _ => []
  | n + 1, line => ⟨.TOKEN_NEWLINE, "\n", line, 1⟩ :: nlToks n (line + 1)

/-- Number of `NODE_INSTRUCTION_DECL` nodes in a child list. -/
def countInstrDecl (ns : List SolanaASTNode) : Nat :=
  ns.countP (fun n => n.ntype = .NODE_INSTRUCTION_DECL)

/-- The spec's reading of the ChainRaw child pass: each child is emitted by
`solana_compiler_compile` at the current opcode counter, and the counter
advances by exactly one per `InstructionDecl` child (so the i-th instruction
child is keyed on opcode `cnt + i`: sequential, 0-based from `cnt`, no
gaps). -/
def instrIndexedEmit (cnt : Nat) : List SolanaASTNode → String
  | [] => ""
  | n :: ns =>
    (solana_compiler_compile false cnt n).1 ++
    instrIndexedEmit (cnt + (if n.ntype = .NODE_INSTRUCTION_DECL then 1 else 0)) ns

/-- A generic-AST leaf of the chain kind `NODE_INSTRUCTION_DECL`. -/
def exInstrLeaf : ASTNode := leafNode .NODE_INSTRUCTION_DECL "bar"

/-- An `if` statement whose *then branch slot* holds an `InstructionDecl`:
a chain node sitting outside every `children` array. -/
def exIfInstr : ASTNode :=
  .mk .NODE_PROGRAM "" none none none none none
    [.mk .NODE_IF_STMT "" none none (some (leafNode .NODE_NUMBER "1"))
      (some exInstrLeaf) none []]

/-- A root whose `children` array holds an `InstructionDecl`. -/
def exChainProg : ASTNode :=
  .mk .NODE_PROGRAM "" none none none none none [exInstrLeaf]

/-- A Solana AST leaf with all chain fields defaulted. -/
def sLeaf (t : NodeType) (v : String) : SolanaASTNode :=
  .mk t v none none none none none [] .SOLANA_TYPE_U64 none none none false false false

/-- An instruction declaration node named `nm` with body `body`. -/
def sInstr (nm : String) (body : Option SolanaASTNode) : SolanaASTNode :=
  .mk .NODE_INSTRUCTION_DECL nm body none none none none [] .SOLANA_TYPE_U64
    none (some nm) none false false false

/-- A `ProgramDecl` whose first instruction's body is itself an
`InstructionDecl` (the parser produces this for an `instruction` statement
as the first statement of another instruction's body). -/
def exNestedProg : SolanaASTNode :=
  .mk .NODE_PROGRAM_DECL "Foo" none none none none none
    [sInstr "A" (some (sInstr "B" none)), sInstr "C" none]
    .SOLANA_TYPE_U64 none none none false false false

/-- A `ProgramDecl` with two plain instructions (no nesting). -/
def exSeqProg : SolanaASTNode :=
  .mk .NODE_PROGRAM_DECL "Foo" none none none none none
    [sInstr "ping" none, sInstr "pong" none]
    .SOLANA_TYPE_U64 none none none false false false

/-- `require(x > 0, "must be positive")` as the Solana parser builds it:
the message string in `value`, the comparison in `condition`. -/
def reqExample : SolanaASTNode :=
  .mk .NODE_REQUIRE_STMT "must be positive" none none
    (some (.mk .NODE_BINARY_OP ">" (some (sLeaf .NODE_IDENTIFIER "x"))
      (some (sLeaf .NODE_NUMBER "0")) none none none [] .SOLANA_TYPE_U64
      none none none false false false))
    none none [] .SOLANA_TYPE_U64 none none none false false false

/-- The token sequence of the one-character source `}`: what the enhanced
lexer hands the parser for it (see `tsStrayBrace_from_lexer`). -/
def tsStrayBrace : List Token :=
  [⟨.TOKEN_RBRACE, "\x7d", 1, 1⟩, ⟨.TOKEN_EOF, "", 1, 2⟩]

end SoLang

/-! # Theorems -/

namespace SoLang

/-! ## Small facts shared between claims -/

theorem advanceLC_tokens (cs : List Char) (st : LexState) :
    (advanceLC st cs).tokens = st.tokens := by
  induction cs generalizing st with
  | nil => rfl
  | cons c cs ih => rw [advanceLC]; split <;> exact ih _

theorem advanceLC_hasError (cs : List Char) (st : LexState) :
    (advanceLC st cs).hasError = st.hasError := by
  induction cs generalizing st with
  | nil => rfl
  | cons c cs ih => rw [advanceLC]; split <;> exact ih _

theorem lexer_add_token_length_le (st : LexState) (t : TokenType) (v : List Char)
    (h : st.tokens.length ≤ MAX_TOKENS) :
    (lexer_add_token st t v).tokens.length ≤ MAX_TOKENS := by
  rw [lexer_add_token]
  split
  · exact h
  · simp only [List.length_append, List.length_cons, List.length_nil]
    omega

/-- The lexer confirms the stray-brace token list used for claim C9. -/
theorem tsStrayBrace_from_lexer :
    (lexEnhanced "\x7d".data).tokens = tsStrayBrace := by decide

/-! ## Claim C9: the parser loop on a stray closing brace

`parser_parse_statement` consumes nothing when the current token is a `}`
that no statement form accepts, so the top-level loop of `parser_parse`
spins forever on the token sequence of the source `}`.  In the fuel model:
no fuel whatsoever lets the loop finish. -/

theorem strayBrace_primary (fuel : Nat) :
    parser_parse_primary fuel tsStrayBrace 0 = (none, 0) := by
  cases fuel with
  | zero => rfl
  | succ f =>
    rw [parser_parse_primary]
    simp [currentToken, tsStrayBrace]

theorem strayBrace_binary (fuel : Nat) :
    parser_parse_binary fuel tsStrayBrace 0 = (none, 0) := by
  cases fuel with
  | zero => rfl
  | succ f =>
    rw [parser_parse_binary]
    rw [strayBrace_primary f]
    simp [currentToken, tsStrayBrace, isBinaryOpType]

theorem strayBrace_expression (fuel : Nat) :
    parser_parse_expression fuel tsStrayBrace 0 = (none, 0) := by
  cases fuel with
  | zero => rfl
  | succ f => rw [parser_parse_expression]; exact strayBrace_binary f

theorem strayBrace_skipTerminators (fuel : Nat) :
    skipTerminators fuel tsStrayBrace 0 = 0 := by
  cases fuel with
  | zero => rfl
  | succ f =>
    rw [skipTerminators]
    simp [currentToken, tsStrayBrace]

theorem strayBrace_statement (fuel : Nat) :
    parser_parse_statement fuel tsStrayBrace 0 = (none, 0) := by
  cases fuel with
  | zero => rfl
  | succ f =>
    rw [parser_parse_statement]
    have hcur : currentToken tsStrayBrace 0 = ⟨.TOKEN_RBRACE, "\x7d", 1, 1⟩ := rfl
    simp [hcur, strayBrace_expression f, strayBrace_skipTerminators f]

theorem strayBrace_topLoop (fuel : Nat) (acc : List ASTNode) :
    (parseTopLoop fuel tsStrayBrace 0 acc).1 = none := by
  induction fuel generalizing acc with
  | zero => rfl
  | succ f ih =>
    rw [parseTopLoop]
    rw [strayBrace_statement f]
    simpa using ih acc

/-- Claim C9 (status: code_bug).  The claim asserts `parser_parse`
terminates on every finite EOF-terminated token sequence, including a
stray closing brace.  The code does not: on the token sequence of the
source `}` (`tsStrayBrace`, produced by the lexer per
`tsStrayBrace_from_lexer`), the top-level parse loop makes no progress and
never completes, for any iteration bound whatsoever. -/
theorem c9_parser_nontermination_stray_brace (fuel : Nat) :
    (parser_parse fuel tsStrayBrace).1 = none := by
  rw [parser_parse]
  have h := strayBrace_topLoop fuel []
  rcases hx : parseTopLoop fuel tsStrayBrace 0 [] with ⟨o, p⟩
  rw [hx] at h
  cases o with
  | none => rfl
  | some items => simp at h

/-! ## Claim C1: one optional binary application per expression -/

/-- Claim C1 (status: confirmed).  In both copies of the parser
(`so_lang_enhanced.c` and `so_lang.c`), `parser_parse_binary` returns
either exactly the primary parse result, or a single `NODE_BINARY_OP` node
whose left child is that primary result and whose right child is the
primary parsed right after the operator token: one optional binary
application, no operator chaining, no precedence levels. -/
theorem c1_expression_single_binary_application (fuel : Nat) (ts : List Token) (pos : Nat) :
    ((parser_parse_binary (fuel + 1) ts pos).1 = (parser_parse_primary fuel ts pos).1 ∨
      (parser_parse_binary (fuel + 1) ts pos).1 =
        some (.mk .NODE_BINARY_OP
          (currentToken ts (parser_parse_primary fuel ts pos).2).value
          (parser_parse_primary fuel ts pos).1
          (parser_parse_primary fuel ts (advancePos ts (parser_parse_primary fuel ts pos).2)).1
          none none none [])) ∧
    ((soParseBinary (fuel + 1) ts pos).1 = (soParsePrimary fuel ts pos).1 ∨
      (soParseBinary (fuel + 1) ts pos).1 =
        some (.mk .NODE_BINARY_OP
          (currentToken ts (soParsePrimary fuel ts pos).2).value
          (soParsePrimary fuel ts pos).1
          (soParsePrimary fuel ts (advancePos ts (soParsePrimary fuel ts pos).2)).1
          none none none [])) := by
  constructor
  · rw [parser_parse_binary]
    by_cases h : isBinaryOpType (currentToken ts (parser_parse_primary fuel ts pos).2).type
    · right; simp [h]
    · left; simp [h]
  · rw [soParseBinary]
    by_cases h : isBinaryOpType (currentToken ts (soParsePrimary fuel ts pos).2).type
    · right; simp [h]
    · left; simp [h]

/-! ## Claim C5: `require` message handling per target -/

/-- Claim C5 (status: corrected), the amended statement.  For every
`RequireStmt` node (message `m` in `value`, condition in `condition`):
under ChainFramework the guard is `require!(<cond>, ErrorCode::CustomError)`
— it references the fixed `ErrorCode::CustomError`, not the message — and
under ChainRaw it is the early `return Err(ProgramError::InvalidArgument)`
guard.  Neither right-hand side mentions `m`: the message influences the
output of neither target. -/
theorem c5_require_guard_message_free (m : String) (cond : Option SolanaASTNode)
    (cnt : Nat) (st : SolanaDataType) (an inm pid : Option String) (sg wr ini : Bool) :
    (solana_compiler_compile true cnt
        (.mk .NODE_REQUIRE_STMT m none none cond none none [] st an inm pid sg wr ini) =
      ("        require!(" ++ (solanaCompileOptCond true cnt cond).1 ++
        ", ErrorCode::CustomError);\n", (solanaCompileOptCond true cnt cond).2)) ∧
    (solana_compiler_compile false cnt
        (.mk .NODE_REQUIRE_STMT m none none cond none none [] st an inm pid sg wr ini) =
      ("            if !(" ++ (solanaCompileOptCond false cnt cond).1 ++ ") \x7b\n" ++
        "                return Err(ProgramError::InvalidArgument);\n" ++
        "            \x7d\n", (solanaCompileOptCond false cnt cond).2)) := by
  constructor <;> (rw [solana_compiler_compile]; simp)

/-- Claim C5's counterexample to the original wording: for
`require(x > 0, "must be positive")` the ChainFramework emission does *not*
reference the literal message — the message string occurs in the output of
neither target. -/
theorem c5_counterexample_message_not_referenced :
    (solana_compiler_compile true 0 reqExample).1 =
      "        require!(x > 0, ErrorCode::CustomError);\n" ∧
    strOccurs "must be positive" (solana_compiler_compile true 0 reqExample).1 = false ∧
    strOccurs "must be positive" (solana_compiler_compile false 0 reqExample).1 = false := by
  refine ⟨by decide, by decide, by decide⟩

/-! ## Claim C2: what the classifier actually searches -/

theorem isChainKind_of_rest (t : NodeType)
    (h2 : (t = NodeType.NODE_INSTRUCTION_DECL || t = NodeType.NODE_ACCOUNT_CONSTRAINT ||
      t = NodeType.NODE_TRANSFER_STMT || t = NodeType.NODE_REQUIRE_STMT ||
      t = NodeType.NODE_EMIT_STMT) = true) : isChainKind t = true := by
  simp only [Bool.or_eq_true, decide_eq_true_eq] at h2
  simp only [isChainKind, Bool.or_eq_true, decide_eq_true_eq]
  tauto

theorem isChainKind_false_of (t : NodeType) (h1 : ¬t = NodeType.NODE_PROGRAM_DECL)
    (h2 : ¬(t = NodeType.NODE_INSTRUCTION_DECL || t = NodeType.NODE_ACCOUNT_CONSTRAINT ||
      t = NodeType.NODE_TRANSFER_STMT || t = NodeType.NODE_REQUIRE_STMT ||
      t = NodeType.NODE_EMIT_STMT) = true) : isChainKind t = false := by
  simp only [Bool.or_eq_true, decide_eq_true_eq, not_or] at h2
  simp only [isChainKind, Bool.or_eq_true, decide_eq_true_eq, Bool.eq_false_iff, ne_eq, not_or]
  tauto

theorem detect_iff_chainViaChildren :
    ∀ n, detect_solana_program n = true ↔ ChainViaChildren n := by
  refine detect_solana_program.induct
    (fun n => detect_solana_program n = true ↔ ChainViaChildren n)
    (fun ns => detectChildren ns = true ↔ ∃ c ∈ ns, ChainViaChildren c)
    ?_ ?_ ?_ ?_ ?_
  · intro v l r c tb eb ch
    refine ⟨fun _ => ChainViaChildren.here rfl, fun _ => ?_⟩
    rw [detect_solana_program]
    simp
  · intro t v l r c tb eb ch h1 h2
    refine ⟨fun _ => ChainViaChildren.here (isChainKind_of_rest t h2), fun _ => ?_⟩
    rw [detect_solana_program]
    simp [h1, h2]
  · intro t v l r c tb eb ch h1 h2 ih
    have hk : isChainKind t = false := isChainKind_false_of t h1 h2
    rw [detect_solana_program, if_neg h1, if_neg h2, ih]
    constructor
    · rintro ⟨c0, hc0, h⟩
      exact ChainViaChildren.child (show c0 ∈ (ASTNode.mk t v l r c tb eb ch).children from hc0) h
    · intro h
      cases h with
      | here hh => rw [show (ASTNode.mk t v l r c tb eb ch).ntype = t from rfl, hk] at hh; cases hh
      | child hc hh => exact ⟨_, hc, hh⟩
  · simp [detectChildren]
  · intro n ns ih1 ih2
    rw [detectChildren]
    simp only [Bool.or_eq_true, ih1, ih2]
    constructor
    · rintro (h | ⟨c0, hc0, h⟩)
      · exact ⟨n, List.mem_cons_self n ns, h⟩
      · exact ⟨c0, List.mem_cons_of_mem n hc0, h⟩
    · rintro ⟨c0, hc0, h⟩
      rcases List.mem_cons.mp hc0 with rfl | hc0
      · exact Or.inl h
      · exact Or.inr ⟨c0, hc0, h⟩

theorem detect_imp_containsChainNode :
    ∀ n, detect_solana_program n = true → containsChainNode n = true := by
  refine detect_solana_program.induct
    (fun n => detect_solana_program n = true → containsChainNode n = true)
    (fun ns => detectChildren ns = true → containsChainNodeList ns = true)
    ?_ ?_ ?_ ?_ ?_
  · intro v l r c tb eb ch _
    rw [containsChainNode]
    simp [isChainKind]
  · intro t v l r c tb eb ch h1 h2 _
    rw [containsChainNode]
    simp [isChainKind_of_rest t h2]
  · intro t v l r c tb eb ch h1 h2 ih hd
    rw [detect_solana_program, if_neg h1, if_neg h2] at hd
    rw [containsChainNode]
    simp [ih hd]
  · intro h
    simp [detectChildren] at h
  · intro n ns ih1 ih2 h
    rw [detectChildren] at h
    rw [containsChainNodeList]
    rcases Bool.or_eq_true _ _ |>.mp h with h | h
    · simp [ih1 h]
    · simp [ih2 h]

/-- Claim C2 (status: corrected), the amended statement.
`detect_solana_program` classifies an AST as a chain program iff a
chain-extension node kind is reachable from the root through `children`
arrays only (`ChainViaChildren`); chain nodes reachable only through the
`left`/`right`/`condition`/`then_branch`/`else_branch` slots are not
searched.  In particular every positive classification really does contain
a chain node (`containsChainNode`, the spec's anywhere-in-the-tree search),
so an AST with no chain node anywhere classifies as Generic — but the
converse direction of the original claim fails (see the counterexample). -/
theorem c2_classifier_searches_children_only (n : ASTNode) :
    (detect_solana_program n = true ↔ ChainViaChildren n) ∧
    (detect_solana_program n = true → containsChainNode n = true) :=
  ⟨detect_iff_chainViaChildren n, detect_imp_containsChainNode n⟩

/-- Claim C2's counterexample to the original wording: `exIfInstr` contains
a `NODE_INSTRUCTION_DECL` (nested under an if-statement branch — the spec's
predicate `containsChainNode` is true), yet `detect_solana_program`
classifies it as Generic. -/
theorem c2_counterexample_instruction_in_branch :
    containsChainNode exIfInstr = true ∧ detect_solana_program exIfInstr = false := by
  refine ⟨by decide, by decide⟩

/-- Witness for claim C2's theorem at a concrete AST: the hypotheses of
both directions are discharged at `exChainProg`. -/
theorem c2_witness :
    detect_solana_program exChainProg = true ∧ containsChainNode exChainProg = true :=
  have h := c2_classifier_searches_children_only exChainProg
  have hd : detect_solana_program exChainProg = true :=
    h.1.mpr (ChainViaChildren.child (List.Mem.head _) (ChainViaChildren.here rfl))
  ⟨hd, h.2 hd⟩

/-! ## Claims C3 and C6: the generic emitter

The `in_function` global is the only mutable state the enhanced emitter
reads.  The lemmas below show every emitter function returns it exactly as
it found it (`compiler_compile_function` always leaves it cleared, and is
only ever entered with it cleared). -/

theorem flag_fn_false (rust : Bool) (n : ASTNode) :
    (compiler_compile_function rust false n).2 = false := by
  cases n with
  | mk t v l r c tb eb ch =>
    rw [compiler_compile_function.eq_def]
    cases l <;> rfl

theorem flag_hoist_false (rust : Bool) (ns : List ASTNode) :
    (hoistFunctions rust false ns).2 = false := by
  induction ns with
  | nil => rw [hoistFunctions]
  | cons n ns ih =>
    rw [hoistFunctions]
    by_cases h : n.ntype = .NODE_FUNC_DECL
    · simp only [h, if_true]
      show (hoistFunctions rust (compiler_compile_function rust false n).2 ns).2 = false
      rw [flag_fn_false rust n]
      exact ih
    · simp only [h, if_false]
      exact ih

mutual

theorem flag_node (rust b : Bool) (n : ASTNode) : (compiler_compile_node rust b n).2 = b := by
  cases n with
  | mk t v l r c tb eb ch =>
    cases t with
    | NODE_PROGRAM =>
      rw [compiler_compile_node]
      cases b with
      | true => simpa using flag_items rust true ch
      | false =>
        simp only [Bool.false_eq_true, if_false]
        show (compileItems rust (hoistFunctions rust false ch).2 ch).2 = false
        rw [flag_hoist_false rust ch]
        exact flag_items rust false ch
    | NODE_FUNC_DECL => rw [compiler_compile_node]
    | NODE_VAR_DECL =>
      rw [compiler_compile_node]
      exact flag_optZero rust b r
    | NODE_PRINT_STMT =>
      rw [compiler_compile_node]
      exact flag_printArg rust b l
    | NODE_IF_STMT =>
      rw [compiler_compile_node]
      show (compileOptElse rust
        (compileOptBranch rust (compileOptExpr rust b c).2 tb).2 eb).2 = b
      rw [flag_optExpr rust b c, flag_optBranch rust b tb]
      exact flag_optElse rust b eb
    | NODE_RETURN_STMT =>
      rw [compiler_compile_node]
      exact flag_optZero rust b l
    | NODE_BINARY_OP =>
      rw [compiler_compile_node]
      show (compileOptExpr rust (compileOptExpr rust b l).2 r).2 = b
      rw [flag_optExpr rust b l]
      exact flag_optExpr rust b r
    | NODE_NUMBER => rw [compiler_compile_node]
    | NODE_STRING => rw [compiler_compile_node]
    | NODE_IDENTIFIER => rw [compiler_compile_node]
    | NODE_FUNC_CALL => rw [compiler_compile_node]
    | NODE_PROGRAM_DECL => rw [compiler_compile_node]
    | NODE_INSTRUCTION_DECL => rw [compiler_compile_node]
    | NODE_ACCOUNT_CONSTRAINT => rw [compiler_compile_node]
    | NODE_TRANSFER_STMT => rw [compiler_compile_node]
    | NODE_REQUIRE_STMT => rw [compiler_compile_node]
    | NODE_EMIT_STMT => rw [compiler_compile_node]
    | NODE_ACCOUNT_DECL => rw [compiler_compile_node]
    | NODE_STATE_DECL => rw [compiler_compile_node]
termination_by (sizeOf n, 2)

theorem flag_items (rust b : Bool) (ns : List ASTNode) : (compileItems rust b ns).2 = b := by
  cases ns with
  | nil => rw [compileItems]
  | cons n ns =>
    rw [compileItems]
    by_cases h : n.ntype = .NODE_FUNC_DECL
    · simp only [h, if_true]
      exact flag_items rust b ns
    · simp only [h, if_false]
      show (compileItems rust (compiler_compile_node rust b n).2 ns).2 = b
      rw [flag_node rust b n]
      exact flag_items rust b ns
termination_by (sizeOf ns, 2)

theorem flag_body (rust b : Bool) (ns : List ASTNode) : (compileBody rust b ns).2 = b := by
  cases ns with
  | nil => rw [compileBody]
  | cons n ns =>
    rw [compileBody]
    show (compileBody rust (compiler_compile_node rust b n).2 ns).2 = b
    rw [flag_node rust b n]
    exact flag_body rust b ns
termination_by (sizeOf ns, 2)

theorem flag_indented (rust b : Bool) (ns : List ASTNode) : (compileIndented rust b ns).2 = b := by
  cases ns with
  | nil => rw [compileIndented]
  | cons n ns =>
    rw [compileIndented]
    show (compileIndented rust (compiler_compile_node rust b n).2 ns).2 = b
    rw [flag_node rust b n]
    exact flag_indented rust b ns
termination_by (sizeOf ns, 2)

theorem flag_indentedCh (rust b : Bool) (n : ASTNode) :
    (compileIndentedChildren rust b n).2 = b := by
  cases n with
  | mk t v l r c tb eb ch =>
    rw [compileIndentedChildren]
    exact flag_indented rust b ch
termination_by (sizeOf n, 2)

theorem flag_else (rust b : Bool) (e : ASTNode) : (compileElseBranch rust b e).2 = b := by
  rw [compileElseBranch]
  by_cases h : e.ntype = .NODE_IF_STMT
  · simp only [h, if_true]
    show (compiler_compile_node rust b e).2 = b
    exact flag_node rust b e
  · simp only [h, if_false]
    show (compileIndentedChildren rust b e).2 = b
    exact flag_indentedCh rust b e
termination_by (sizeOf e, 3)

theorem flag_optZero (rust b : Bool) (o : Option ASTNode) : (compileOptZero rust b o).2 = b := by
  cases o with
  | none => rw [compileOptZero]
  | some e =>
    rw [compileOptZero]
    exact flag_node rust b e
termination_by (sizeOf o, 2)

theorem flag_optExpr (rust b : Bool) (o : Option ASTNode) : (compileOptExpr rust b o).2 = b := by
  cases o with
  | none => rw [compileOptExpr]
  | some e =>
    rw [compileOptExpr]
    exact flag_node rust b e
termination_by (sizeOf o, 2)

theorem flag_printArg (rust b : Bool) (o : Option ASTNode) : (compilePrintArg rust b o).2 = b := by
  cases o with
  | none => rw [compilePrintArg]
  | some e =>
    rw [compilePrintArg]
    exact flag_node rust b e
termination_by (sizeOf o, 2)

theorem flag_optBranch (rust b : Bool) (o : Option ASTNode) :
    (compileOptBranch rust b o).2 = b := by
  cases o with
  | none => rw [compileOptBranch]
  | some e =>
    rw [compileOptBranch]
    exact flag_indentedCh rust b e
termination_by (sizeOf o, 2)

theorem flag_optElse (rust b : Bool) (o : Option ASTNode) : (compileOptElse rust b o).2 = b := by
  cases o with
  | none => rw [compileOptElse]
  | some e =>
    rw [compileOptElse]
    exact flag_else rust b e
termination_by (sizeOf o, 4)

end

theorem string_join_cons (s : String) (L : List String) :
    String.join (s :: L) = s ++ String.join L := by
  rw [String.join_eq, String.join_eq]
  cases s
  rfl

/-- The entry pass emits exactly the non-function children, in order. -/
theorem compileItems_join (rust : Bool) (ns : List ASTNode) :
    (compileItems rust false ns).1 =
      String.join ((ns.filter (fun n => !decide (n.ntype = .NODE_FUNC_DECL))).map
        (fun n => (compiler_compile_node rust false n).1)) := by
  induction ns with
  | nil => rw [compileItems]; rfl
  | cons n ns ih =>
    rw [compileItems]
    by_cases h : n.ntype = .NODE_FUNC_DECL
    · simpa [h] using ih
    · simp only [h, if_false]
      show (compiler_compile_node rust false n).1 ++
        (compileItems rust (compiler_compile_node rust false n).2 ns).1 = _
      rw [flag_node rust false n, ih, List.filter_cons_of_pos (by simp [h]),
        List.map_cons, string_join_cons]

/-- The hoist pass emits exactly the function children, in order. -/
theorem hoistFunctions_join (rust : Bool) (ns : List ASTNode) :
    (hoistFunctions rust false ns).1 =
      String.join ((ns.filter (fun n => decide (n.ntype = .NODE_FUNC_DECL))).map
        (fun n => (compiler_compile_function rust false n).1)) := by
  induction ns with
  | nil => rw [hoistFunctions]; rfl
  | cons n ns ih =>
    rw [hoistFunctions]
    by_cases h : n.ntype = .NODE_FUNC_DECL
    · simp only [h, if_true]
      show (compiler_compile_function rust false n).1 ++
        (hoistFunctions rust (compiler_compile_function rust false n).2 ns).1 = _
      rw [flag_fn_false rust n, ih, List.filter_cons_of_pos (by simp [h]),
        List.map_cons, string_join_cons]
    · simpa [h] using ih

/-- Claim C3 (status: confirmed).  Compiling a `NODE_PROGRAM` root to a
generic target (`rust = false` for C, `rust = true` for Rust) emits, in
this order: (C only) the `#include` headers, then every `NODE_FUNC_DECL`
child as a standalone function, then the entry point opener, then exactly
the non-function children in source order, then the entry close with the
success return.  And every emitted function ends with the explicit
fallback zero return before its closing brace. -/
theorem c3_two_pass_emission (rust : Bool) (v : String)
    (l r c tb eb : Option ASTNode) (ch : List ASTNode) :
    (compiler_compile rust false (.mk .NODE_PROGRAM v l r c tb eb ch) =
      ((if rust then (hoistFunctions rust false ch).1 ++ "fn main() \x7b\n"
        else cHeaders ++ (hoistFunctions rust false ch).1 ++ "int main() \x7b\n") ++
        (compileItems rust false ch).1 ++
        (if rust then "\x7d\n" else "    return 0;\n\x7d\n"), false)) ∧
    ((hoistFunctions rust false ch).1 =
      String.join ((ch.filter (fun n => decide (n.ntype = .NODE_FUNC_DECL))).map
        (fun n => (compiler_compile_function rust false n).1))) ∧
    ((compileItems rust false ch).1 =
      String.join ((ch.filter (fun n => !decide (n.ntype = .NODE_FUNC_DECL))).map
        (fun n => (compiler_compile_node rust false n).1))) ∧
    (∀ f : ASTNode, ∃ s, (compiler_compile_function rust false f).1 =
      s ++ ((if rust then "    0\n" else "    return 0;\n") ++ "\x7d\n\n")) := by
  refine ⟨?_, hoistFunctions_join rust ch, compileItems_join rust ch, ?_⟩
  · rw [compiler_compile, compiler_compile_node]
    have hp := flag_hoist_false rust ch
    simp only [Bool.false_eq_true, if_false]
    show ((if rust then (hoistFunctions rust false ch).1 ++ "fn main() \x7b\n"
        else cHeaders ++ (hoistFunctions rust false ch).1 ++ "int main() \x7b\n") ++
        (compileItems rust (hoistFunctions rust false ch).2 ch).1 ++
        (if rust then "\x7d\n" else "    return 0;\n\x7d\n"),
        (compileItems rust (hoistFunctions rust false ch).2 ch).2) = _
    rw [hp, flag_items rust false ch]
  · intro f
    cases f with
    | mk t fv fl fr fc ftb feb fch =>
      rw [compiler_compile_function.eq_def]
      cases fl with
      | none =>
        refine ⟨(if rust then "fn " ++ fv ++ "() -> i32 \x7b\n"
          else "int " ++ fv ++ "() \x7b\n") ++ "", ?_⟩
        simp [String.append_assoc]
      | some blk =>
        refine ⟨(if rust then "fn " ++ fv ++ "() -> i32 \x7b\n"
          else "int " ++ fv ++ "() \x7b\n") ++ (compileBlockChildren rust true blk).1, ?_⟩
        simp [String.append_assoc]

/-- Claim C6 (status: confirmed).  The only hidden per-run state the
generic emitter consults is the process-global `in_function` flag; a full
emission returns it exactly as it found it (`false`), so emitting the same
AST twice in succession — the second run starting from whatever state the
first run left behind — produces byte-identical output for both targets. -/
theorem c6_emission_deterministic (rust : Bool) (ast : ASTNode) :
    (compiler_compile rust false ast).2 = false ∧
    compiler_compile rust ((compiler_compile rust false ast).2) ast =
      compiler_compile rust false ast := by
  have h : (compiler_compile rust false ast).2 = false := flag_node rust false ast
  exact ⟨h, by rw [h]⟩

/-! ## Claim C4: sequential opcode assignment under ChainRaw -/

theorem string_append_empty_right (s : String) : s ++ "" = s := by
  cases s with
  | mk d =>
    show String.mk (d ++ []) = String.mk d
    rw [List.append_nil]

theorem solanaChildren_sequential (children : List SolanaASTNode)
    (H : ∀ n ∈ children, ∀ c : Nat, (solana_compiler_compile false c n).2 =
      c + (if n.ntype = .NODE_INSTRUCTION_DECL then 1 else 0)) :
    ∀ c : Nat, solanaCompileChildren false c children =
      (instrIndexedEmit c children, c + countInstrDecl children) := by
  induction children with
  | nil =>
    intro c
    rw [solanaCompileChildren, instrIndexedEmit]
    simp [countInstrDecl]
  | cons n ns ih =>
    intro c
    have hn := H n (List.mem_cons_self n ns) c
    have ih' := ih (fun m hm => H m (List.mem_cons_of_mem n hm))
      (c + (if n.ntype = .NODE_INSTRUCTION_DECL then 1 else 0))
    have hc : countInstrDecl (n :: ns) =
        countInstrDecl ns + (if n.ntype = .NODE_INSTRUCTION_DECL then 1 else 0) := by
      simp only [countInstrDecl, List.countP_cons]
      split <;> simp_all
    rw [solanaCompileChildren]
    show ((solana_compiler_compile false c n).1 ++
        (solanaCompileChildren false (solana_compiler_compile false c n).2 ns).1,
        (solanaCompileChildren false (solana_compiler_compile false c n).2 ns).2) = _
    rw [hn, ih']
    show ((solana_compiler_compile false c n).1 ++
        instrIndexedEmit (c + (if n.ntype = .NODE_INSTRUCTION_DECL then 1 else 0)) ns,
        (c + (if n.ntype = .NODE_INSTRUCTION_DECL then 1 else 0)) + countInstrDecl ns) = _
    rw [instrIndexedEmit, hc]
    exact congrArg (Prod.mk _) (by omega)

/-- Claim C4 (status: corrected), the amended statement.  Under the ChainRaw
target, compiling a `ProgramDecl` threads the `instruction_count` through
its children left to right; *provided every child advances the counter by
exactly one when it is an `InstructionDecl` and not at all otherwise* (true
whenever no instruction body itself contains an emitted `InstructionDecl`),
the children are emitted as `instrIndexedEmit 0 children`: by definition the
i-th `InstructionDecl` child is emitted at counter i — opcodes sequential
from 0 with no gaps — and the final count is the number of instruction
children.  The second conjunct shows the dispatch arm such a child emits at
counter `k`: keyed on the literal opcode `k`, matched against
`instruction_data[0]`. -/
theorem c4_chainraw_sequential_opcodes (v : String) (stype : SolanaDataType)
    (an inm pid : Option String) (sg wr ini : Bool) (children : List SolanaASTNode)
    (H : ∀ n ∈ children, ∀ c : Nat, (solana_compiler_compile false c n).2 =
      c + (if n.ntype = .NODE_INSTRUCTION_DECL then 1 else 0)) :
    (solana_compiler_compile false 0
        (.mk .NODE_PROGRAM_DECL v none none none none none children stype an inm pid sg wr ini) =
      (nativeSolanaImports ++
        emit_program_structure false
          (.mk .NODE_PROGRAM_DECL v none none none none none children stype an inm pid sg wr ini) ++
        instrIndexedEmit 0 children ++ "    Ok(())\n\x7d\n",
        countInstrDecl children)) ∧
    (∀ (k : Nat) (nm : String) (iname : Option String),
      solana_compiler_compile false k
          (.mk .NODE_INSTRUCTION_DECL nm none none none none none [] stype an iname pid sg wr ini) =
        ("    match instruction_data[0] \x7b\n" ++
         "        " ++ toString k ++ " => \x7b\n" ++
         "            msg!(\"Executing " ++ fmtCStr iname ++ "\");\n" ++
         "        \x7d,\n" ++
         "    \x7d\n", k + 1)) := by
  constructor
  · rw [solana_compiler_compile]
    have h := solanaChildren_sequential children H 0
    show (nativeSolanaImports ++
        emit_program_structure false
          (.mk .NODE_PROGRAM_DECL v none none none none none children stype an inm pid sg wr ini) ++
        (solanaCompileChildren false 0 children).1 ++ "    Ok(())\n\x7d\n",
      (solanaCompileChildren false 0 children).2) = _
    rw [h]
    exact congrArg (Prod.mk _) (Nat.zero_add _)
  · intro k nm iname
    rw [solana_compiler_compile, emit_instruction_handler]
    show ("    match instruction_data[0] \x7b\n" ++
         "        " ++ toString k ++ " => \x7b\n" ++
         "            msg!(\"Executing " ++ fmtCStr iname ++ "\");\n" ++
         "" ++
         "        \x7d,\n" ++
         "    \x7d\n", k + 1) = _
    rw [string_append_empty_right]

/-- Claim C4's counterexample to the original wording: in `exNestedProg`
the program has two `InstructionDecl` children (`A`, then `C`), but `A`'s
body holds a nested `InstructionDecl` `B` that also consumes an opcode, so
the second instruction child `C` (i = 1, 0-based) is keyed on opcode `2`,
not `1`, and the final count is `3` for two instruction children — the
opcodes of the instruction children are not `0..n-1`. -/
theorem c4_counterexample_nested_instruction :
    countInstrDecl exNestedProg.children = 2 ∧
    (solana_compiler_compile false 0 exNestedProg).2 = 3 ∧
    strOccurs "        2 => \x7b\n            msg!(\"Executing C\");\n"
      (solana_compiler_compile false 0 exNestedProg).1 = true ∧
    strOccurs "        1 => \x7b\n            msg!(\"Executing C\");\n"
      (solana_compiler_compile false 0 exNestedProg).1 = false := by
  exact ⟨by decide, by decide,
    by set_option maxRecDepth 20000 in decide,
    by set_option maxRecDepth 20000 in decide⟩

/-- Witness for claim C4's theorem: the hypothesis is discharged at the
two-instruction program `exSeqProg`, and the two arms are keyed `0` and
`1`. -/
theorem c4_witness :
    (solana_compiler_compile false 0 exSeqProg =
      (nativeSolanaImports ++ emit_program_structure false exSeqProg ++
        instrIndexedEmit 0 [sInstr "ping" none, sInstr "pong" none] ++
        "    Ok(())\n\x7d\n", 2)) ∧
    strOccurs "        0 => \x7b\n            msg!(\"Executing ping\");\n"
      (solana_compiler_compile false 0 exSeqProg).1 = true ∧
    strOccurs "        1 => \x7b\n            msg!(\"Executing pong\");\n"
      (solana_compiler_compile false 0 exSeqProg).1 = true := by
  have H : ∀ n ∈ [sInstr "ping" none, sInstr "pong" none], ∀ c : Nat,
      (solana_compiler_compile false c n).2 =
        c + (if n.ntype = .NODE_INSTRUCTION_DECL then 1 else 0) := by
    intro n hn c
    rcases List.mem_cons.mp hn with rfl | hn
    · rw [sInstr, solana_compiler_compile, emit_instruction_handler]
      simp [SolanaASTNode.ntype]
    rcases List.mem_cons.mp hn with rfl | hn
    · rw [sInstr, solana_compiler_compile, emit_instruction_handler]
      simp [SolanaASTNode.ntype]
    · cases hn
  have h := (c4_chainraw_sequential_opcodes "Foo" .SOLANA_TYPE_U64 none none none
    false false false [sInstr "ping" none, sInstr "pong" none] H).1
  refine ⟨?_, ?_, ?_⟩
  · have hc : countInstrDecl [sInstr "ping" none, sInstr "pong" none] = 2 := by decide
    rw [show exSeqProg = .mk .NODE_PROGRAM_DECL "Foo" none none none none none
      [sInstr "ping" none, sInstr "pong" none] .SOLANA_TYPE_U64 none none none
      false false false from rfl]
    rw [h, hc]
  · set_option maxRecDepth 20000 in decide
  · set_option maxRecDepth 20000 in decide

/-! ## Claim C7: the token stream and its EOF terminator -/

theorem length_dropWhile_le (p : Char → Bool) (l : List Char) :
    (l.dropWhile p).length ≤ l.length := by
  induction l with
  | nil => exact le_refl _
  | cons a l ih =>
    rw [List.dropWhile_cons]
    split
    · exact le_trans ih (by simp)
    · exact le_refl _

theorem length_tail_le (l : List Char) : l.tail.length ≤ l.length := by
  rw [List.length_tail]; omega

/-- Every iteration of the `so_lang.c` scan loop consumes input (weakly). -/
theorem soStep_rest_le (st : LexState) (c : Char) (rest : List Char) :
    (soStep st c rest).2.length ≤ rest.length := by
  rw [soStep]
  by_cases h1 : soWsP c = true
  · rw [if_pos h1]
    all_goals first
      | exact le_refl _
      | exact length_dropWhile_le _ _
      | exact length_tail_le _
      | exact le_trans (length_tail_le _) (length_dropWhile_le _ _)
  rw [if_neg h1]
  by_cases h2 : c = '\n'
  · rw [if_pos h2]
    all_goals first
      | exact le_refl _
      | exact length_dropWhile_le _ _
      | exact length_tail_le _
      | exact le_trans (length_tail_le _) (length_dropWhile_le _ _)
  rw [if_neg h2]
  by_cases h3 : c = '"'
  · rw [if_pos h3]
    by_cases hs : (rest.dropWhile (· ≠ '"')).headD '\x00' = '"'
    · rw [if_pos hs]
      all_goals first
        | exact le_refl _
        | exact length_dropWhile_le _ _
        | exact length_tail_le _
        | exact le_trans (length_tail_le _) (length_dropWhile_le _ _)
    · rw [if_neg hs]
      all_goals first
        | exact le_refl _
        | exact length_dropWhile_le _ _
        | exact length_tail_le _
        | exact le_trans (length_tail_le _) (length_dropWhile_le _ _)
  rw [if_neg h3]
  by_cases h4 : (c_isalpha c || c = '_') = true
  · rw [if_pos h4]
    all_goals first
      | exact le_refl _
      | exact length_dropWhile_le _ _
      | exact length_tail_le _
      | exact le_trans (length_tail_le _) (length_dropWhile_le _ _)
  rw [if_neg h4]
  by_cases h5 : c_isdigit c = true
  · rw [if_pos h5]
    all_goals first
      | exact le_refl _
      | exact length_dropWhile_le _ _
      | exact length_tail_le _
      | exact le_trans (length_tail_le _) (length_dropWhile_le _ _)
  rw [if_neg h5]
  by_cases h6 : c = '='
  · rw [if_pos h6]
    by_cases he : rest.headD '\x00' = '='
    · rw [if_pos he]
      all_goals first
        | exact le_refl _
        | exact length_dropWhile_le _ _
        | exact length_tail_le _
        | exact le_trans (length_tail_le _) (length_dropWhile_le _ _)
    · rw [if_neg he]
      all_goals first
        | exact le_refl _
        | exact length_dropWhile_le _ _
        | exact length_tail_le _
        | exact le_trans (length_tail_le _) (length_dropWhile_le _ _)
  rw [if_neg h6]
  by_cases h7 : c = '+'
  · rw [if_pos h7]
    all_goals first
      | exact le_refl _
      | exact length_dropWhile_le _ _
      | exact length_tail_le _
      | exact le_trans (length_tail_le _) (length_dropWhile_le _ _)
  rw [if_neg h7]
  by_cases h8 : c = '-'
  · rw [if_pos h8]
    all_goals first
      | exact le_refl _
      | exact length_dropWhile_le _ _
      | exact length_tail_le _
      | exact le_trans (length_tail_le _) (length_dropWhile_le _ _)
  rw [if_neg h8]
  by_cases h9 : c = '*'
  · rw [if_pos h9]
    all_goals first
      | exact le_refl _
      | exact length_dropWhile_le _ _
      | exact length_tail_le _
      | exact le_trans (length_tail_le _) (length_dropWhile_le _ _)
  rw [if_neg h9]
  by_cases h10 : c = '/'
  · rw [if_pos h10]
    all_goals first
      | exact le_refl _
      | exact length_dropWhile_le _ _
      | exact length_tail_le _
      | exact le_trans (length_tail_le _) (length_dropWhile_le _ _)
  rw [if_neg h10]
  by_cases h11 : c = '<'
  · rw [if_pos h11]
    all_goals first
      | exact le_refl _
      | exact length_dropWhile_le _ _
      | exact length_tail_le _
      | exact le_trans (length_tail_le _) (length_dropWhile_le _ _)
  rw [if_neg h11]
  by_cases h12 : c = '>'
  · rw [if_pos h12]
    all_goals first
      | exact le_refl _
      | exact length_dropWhile_le _ _
      | exact length_tail_le _
      | exact le_trans (length_tail_le _) (length_dropWhile_le _ _)
  rw [if_neg h12]
  by_cases h13 : c = '('
  · rw [if_pos h13]
    all_goals first
      | exact le_refl _
      | exact length_dropWhile_le _ _
      | exact length_tail_le _
      | exact le_trans (length_tail_le _) (length_dropWhile_le _ _)
  rw [if_neg h13]
  by_cases h14 : c = ')'
  · rw [if_pos h14]
    all_goals first
      | exact le_refl _
      | exact length_dropWhile_le _ _
      | exact length_tail_le _
      | exact le_trans (length_tail_le _) (length_dropWhile_le _ _)
  rw [if_neg h14]
  by_cases h15 : c = '\x7b'
  · rw [if_pos h15]
    all_goals first
      | exact le_refl _
      | exact length_dropWhile_le _ _
      | exact length_tail_le _
      | exact le_trans (length_tail_le _) (length_dropWhile_le _ _)
  rw [if_neg h15]
  by_cases h16 : c = '\x7d'
  · rw [if_pos h16]
    all_goals first
      | exact le_refl _
      | exact length_dropWhile_le _ _
      | exact length_tail_le _
      | exact le_trans (length_tail_le _) (length_dropWhile_le _ _)
  rw [if_neg h16]
  by_cases h17 : c = ','
  · rw [if_pos h17]
    all_goals first
      | exact le_refl _
      | exact length_dropWhile_le _ _
      | exact length_tail_le _
      | exact le_trans (length_tail_le _) (length_dropWhile_le _ _)
  rw [if_neg h17]
  by_cases h18 : c = ';'
  · rw [if_pos h18]
    all_goals first
      | exact le_refl _
      | exact length_dropWhile_le _ _
      | exact length_tail_le _
      | exact le_trans (length_tail_le _) (length_dropWhile_le _ _)
  rw [if_neg h18]
  by_cases h19 : c = '@'
  · rw [if_pos h19]
    all_goals first
      | exact le_refl _
      | exact length_dropWhile_le _ _
      | exact length_tail_le _
      | exact le_trans (length_tail_le _) (length_dropWhile_le _ _)
  rw [if_neg h19]
  all_goals first
    | exact le_refl _
    | exact length_dropWhile_le _ _
    | exact length_tail_le _
    | exact le_trans (length_tail_le _) (length_dropWhile_le _ _)


theorem advanceLC_tokens_length (s : LexState) (cs : List Char) :
    (advanceLC s cs).tokens.length = s.tokens.length := by
  rw [advanceLC_tokens]


/-- Every iteration of the `so_lang.c` scan loop preserves the token-count
bound (`lexer_add_token` refuses appends at the cap). -/
theorem soStep_tokens_le (st : LexState) (c : Char) (rest : List Char)
    (h : st.tokens.length ≤ MAX_TOKENS) :
    (soStep st c rest).1.tokens.length ≤ MAX_TOKENS := by
  rw [soStep]
  by_cases h1 : soWsP c = true
  · rw [if_pos h1]
    all_goals first
      | exact (le_of_eq (advanceLC_tokens_length _ _)).trans h
      | exact (le_of_eq (advanceLC_tokens_length _ _)).trans (lexer_add_token_length_le _ _ _ h)
      | exact lexer_add_token_length_le _ _ _ ((le_of_eq (advanceLC_tokens_length _ _)).trans h)
      | exact (le_of_eq (advanceLC_tokens_length _ _)).trans
          (lexer_add_token_length_le _ _ _ ((le_of_eq (advanceLC_tokens_length _ _)).trans h))
  rw [if_neg h1]
  by_cases h2 : c = '\n'
  · rw [if_pos h2]
    all_goals first
      | exact (le_of_eq (advanceLC_tokens_length _ _)).trans h
      | exact (le_of_eq (advanceLC_tokens_length _ _)).trans (lexer_add_token_length_le _ _ _ h)
      | exact lexer_add_token_length_le _ _ _ ((le_of_eq (advanceLC_tokens_length _ _)).trans h)
      | exact (le_of_eq (advanceLC_tokens_length _ _)).trans
          (lexer_add_token_length_le _ _ _ ((le_of_eq (advanceLC_tokens_length _ _)).trans h))
  rw [if_neg h2]
  by_cases h3 : c = '"'
  · rw [if_pos h3]
    by_cases hs : (rest.dropWhile (· ≠ '"')).headD '\x00' = '"'
    · rw [if_pos hs]
      all_goals first
        | exact (le_of_eq (advanceLC_tokens_length _ _)).trans h
        | exact (le_of_eq (advanceLC_tokens_length _ _)).trans (lexer_add_token_length_le _ _ _ h)
        | exact lexer_add_token_length_le _ _ _ ((le_of_eq (advanceLC_tokens_length _ _)).trans h)
        | exact (le_of_eq (advanceLC_tokens_length _ _)).trans
            (lexer_add_token_length_le _ _ _ ((le_of_eq (advanceLC_tokens_length _ _)).trans h))
    · rw [if_neg hs]
      all_goals first
        | exact (le_of_eq (advanceLC_tokens_length _ _)).trans h
        | exact (le_of_eq (advanceLC_tokens_length _ _)).trans (lexer_add_token_length_le _ _ _ h)
        | exact lexer_add_token_length_le _ _ _ ((le_of_eq (advanceLC_tokens_length _ _)).trans h)
        | exact (le_of_eq (advanceLC_tokens_length _ _)).trans
            (lexer_add_token_length_le _ _ _ ((le_of_eq (advanceLC_tokens_length _ _)).trans h))
  rw [if_neg h3]
  by_cases h4 : (c_isalpha c || c = '_') = true
  · rw [if_pos h4]
    all_goals first
      | exact (le_of_eq (advanceLC_tokens_length _ _)).trans h
      | exact (le_of_eq (advanceLC_tokens_length _ _)).trans (lexer_add_token_length_le _ _ _ h)
      | exact lexer_add_token_length_le _ _ _ ((le_of_eq (advanceLC_tokens_length _ _)).trans h)
      | exact (le_of_eq (advanceLC_tokens_length _ _)).trans
          (lexer_add_token_length_le _ _ _ ((le_of_eq (advanceLC_tokens_length _ _)).trans h))
  rw [if_neg h4]
  by_cases h5 : c_isdigit c = true
  · rw [if_pos h5]
    all_goals first
      | exact (le_of_eq (advanceLC_tokens_length _ _)).trans h
      | exact (le_of_eq (advanceLC_tokens_length _ _)).trans (lexer_add_token_length_le _ _ _ h)
      | exact lexer_add_token_length_le _ _ _ ((le_of_eq (advanceLC_tokens_length _ _)).trans h)
      | exact (le_of_eq (advanceLC_tokens_length _ _)).trans
          (lexer_add_token_length_le _ _ _ ((le_of_eq (advanceLC_tokens_length _ _)).trans h))
  rw [if_neg h5]
  by_cases h6 : c = '='
  · rw [if_pos h6]
    by_cases he : rest.headD '\x00' = '='
    · rw [if_pos he]
      all_goals first
        | exact (le_of_eq (advanceLC_tokens_length _ _)).trans h
        | exact (le_of_eq (advanceLC_tokens_length _ _)).trans (lexer_add_token_length_le _ _ _ h)
        | exact lexer_add_token_length_le _ _ _ ((le_of_eq (advanceLC_tokens_length _ _)).trans h)
        | exact (le_of_eq (advanceLC_tokens_length _ _)).trans
            (lexer_add_token_length_le _ _ _ ((le_of_eq (advanceLC_tokens_length _ _)).trans h))
    · rw [if_neg he]
      all_goals first
        | exact (le_of_eq (advanceLC_tokens_length _ _)).trans h
        | exact (le_of_eq (advanceLC_tokens_length _ _)).trans (lexer_add_token_length_le _ _ _ h)
        | exact lexer_add_token_length_le _ _ _ ((le_of_eq (advanceLC_tokens_length _ _)).trans h)
        | exact (le_of_eq (advanceLC_tokens_length _ _)).trans
            (lexer_add_token_length_le _ _ _ ((le_of_eq (advanceLC_tokens_length _ _)).trans h))
  rw [if_neg h6]
  by_cases h7 : c = '+'
  · rw [if_pos h7]
    all_goals first
      | exact (le_of_eq (advanceLC_tokens_length _ _)).trans h
      | exact (le_of_eq (advanceLC_tokens_length _ _)).trans (lexer_add_token_length_le _ _ _ h)
      | exact lexer_add_token_length_le _ _ _ ((le_of_eq (advanceLC_tokens_length _ _)).trans h)
      | exact (le_of_eq (advanceLC_tokens_length _ _)).trans
          (lexer_add_token_length_le _ _ _ ((le_of_eq (advanceLC_tokens_length _ _)).trans h))
  rw [if_neg h7]
  by_cases h8 : c = '-'
  · rw [if_pos h8]
    all_goals first
      | exact (le_of_eq (advanceLC_tokens_length _ _)).trans h
      | exact (le_of_eq (advanceLC_tokens_length _ _)).trans (lexer_add_token_length_le _ _ _ h)
      | exact lexer_add_token_length_le _ _ _ ((le_of_eq (advanceLC_tokens_length _ _)).trans h)
      | exact (le_of_eq (advanceLC_tokens_length _ _)).trans
          (lexer_add_token_length_le _ _ _ ((le_of_eq (advanceLC_tokens_length _ _)).trans h))
  rw [if_neg h8]
  by_cases h9 : c = '*'
  · rw [if_pos h9]
    all_goals first
      | exact (le_of_eq (advanceLC_tokens_length _ _)).trans h
      | exact (le_of_eq (advanceLC_tokens_length _ _)).trans (lexer_add_token_length_le _ _ _ h)
      | exact lexer_add_token_length_le _ _ _ ((le_of_eq (advanceLC_tokens_length _ _)).trans h)
      | exact (le_of_eq (advanceLC_tokens_length _ _)).trans
          (lexer_add_token_length_le _ _ _ ((le_of_eq (advanceLC_tokens_length _ _)).trans h))
  rw [if_neg h9]
  by_cases h10 : c = '/'
  · rw [if_pos h10]
    all_goals first
      | exact (le_of_eq (advanceLC_tokens_length _ _)).trans h
      | exact (le_of_eq (advanceLC_tokens_length _ _)).trans (lexer_add_token_length_le _ _ _ h)
      | exact lexer_add_token_length_le _ _ _ ((le_of_eq (advanceLC_tokens_length _ _)).trans h)
      | exact (le_of_eq (advanceLC_tokens_length _ _)).trans
          (lexer_add_token_length_le _ _ _ ((le_of_eq (advanceLC_tokens_length _ _)).trans h))
  rw [if_neg h10]
  by_cases h11 : c = '<'
  · rw [if_pos h11]
    all_goals first
      | exact (le_of_eq (advanceLC_tokens_length _ _)).trans h
      | exact (le_of_eq (advanceLC_tokens_length _ _)).trans (lexer_add_token_length_le _ _ _ h)
      | exact lexer_add_token_length_le _ _ _ ((le_of_eq (advanceLC_tokens_length _ _)).trans h)
      | exact (le_of_eq (advanceLC_tokens_length _ _)).trans
          (lexer_add_token_length_le _ _ _ ((le_of_eq (advanceLC_tokens_length _ _)).trans h))
  rw [if_neg h11]
  by_cases h12 : c = '>'
  · rw [if_pos h12]
    all_goals first
      | exact (le_of_eq (advanceLC_tokens_length _ _)).trans h
      | exact (le_of_eq (advanceLC_tokens_length _ _)).trans (lexer_add_token_length_le _ _ _ h)
      | exact lexer_add_token_length_le _ _ _ ((le_of_eq (advanceLC_tokens_length _ _)).trans h)
      | exact (le_of_eq (advanceLC_tokens_length _ _)).trans
          (lexer_add_token_length_le _ _ _ ((le_of_eq (advanceLC_tokens_length _ _)).trans h))
  rw [if_neg h12]
  by_cases h13 : c = '('
  · rw [if_pos h13]
    all_goals first
      | exact (le_of_eq (advanceLC_tokens_length _ _)).trans h
      | exact (le_of_eq (advanceLC_tokens_length _ _)).trans (lexer_add_token_length_le _ _ _ h)
      | exact lexer_add_token_length_le _ _ _ ((le_of_eq (advanceLC_tokens_length _ _)).trans h)
      | exact (le_of_eq (advanceLC_tokens_length _ _)).trans
          (lexer_add_token_length_le _ _ _ ((le_of_eq (advanceLC_tokens_length _ _)).trans h))
  rw [if_neg h13]
  by_cases h14 : c = ')'
  · rw [if_pos h14]
    all_goals first
      | exact (le_of_eq (advanceLC_tokens_length _ _)).trans h
      | exact (le_of_eq (advanceLC_tokens_length _ _)).trans (lexer_add_token_length_le _ _ _ h)
      | exact lexer_add_token_length_le _ _ _ ((le_of_eq (advanceLC_tokens_length _ _)).trans h)
      | exact (le_of_eq (advanceLC_tokens_length _ _)).trans
          (lexer_add_token_length_le _ _ _ ((le_of_eq (advanceLC_tokens_length _ _)).trans h))
  rw [if_neg h14]
  by_cases h15 : c = '\x7b'
  · rw [if_pos h15]
    all_goals first
      | exact (le_of_eq (advanceLC_tokens_length _ _)).trans h
      | exact (le_of_eq (advanceLC_tokens_length _ _)).trans (lexer_add_token_length_le _ _ _ h)
      | exact lexer_add_token_length_le _ _ _ ((le_of_eq (advanceLC_tokens_length _ _)).trans h)
      | exact (le_of_eq (advanceLC_tokens_length _ _)).trans
          (lexer_add_token_length_le _ _ _ ((le_of_eq (advanceLC_tokens_length _ _)).trans h))
  rw [if_neg h15]
  by_cases h16 : c = '\x7d'
  · rw [if_pos h16]
    all_goals first
      | exact (le_of_eq (advanceLC_tokens_length _ _)).trans h
      | exact (le_of_eq (advanceLC_tokens_length _ _)).trans (lexer_add_token_length_le _ _ _ h)
      | exact lexer_add_token_length_le _ _ _ ((le_of_eq (advanceLC_tokens_length _ _)).trans h)
      | exact (le_of_eq (advanceLC_tokens_length _ _)).trans
          (lexer_add_token_length_le _ _ _ ((le_of_eq (advanceLC_tokens_length _ _)).trans h))
  rw [if_neg h16]
  by_cases h17 : c = ','
  · rw [if_pos h17]
    all_goals first
      | exact (le_of_eq (advanceLC_tokens_length _ _)).trans h
      | exact (le_of_eq (advanceLC_tokens_length _ _)).trans (lexer_add_token_length_le _ _ _ h)
      | exact lexer_add_token_length_le _ _ _ ((le_of_eq (advanceLC_tokens_length _ _)).trans h)
      | exact (le_of_eq (advanceLC_tokens_length _ _)).trans
          (lexer_add_token_length_le _ _ _ ((le_of_eq (advanceLC_tokens_length _ _)).trans h))
  rw [if_neg h17]
  by_cases h18 : c = ';'
  · rw [if_pos h18]
    all_goals first
      | exact (le_of_eq (advanceLC_tokens_length _ _)).trans h
      | exact (le_of_eq (advanceLC_tokens_length _ _)).trans (lexer_add_token_length_le _ _ _ h)
      | exact lexer_add_token_length_le _ _ _ ((le_of_eq (advanceLC_tokens_length _ _)).trans h)
      | exact (le_of_eq (advanceLC_tokens_length _ _)).trans
          (lexer_add_token_length_le _ _ _ ((le_of_eq (advanceLC_tokens_length _ _)).trans h))
  rw [if_neg h18]
  by_cases h19 : c = '@'
  · rw [if_pos h19]
    all_goals first
      | exact (le_of_eq (advanceLC_tokens_length _ _)).trans h
      | exact (le_of_eq (advanceLC_tokens_length _ _)).trans (lexer_add_token_length_le _ _ _ h)
      | exact lexer_add_token_length_le _ _ _ ((le_of_eq (advanceLC_tokens_length _ _)).trans h)
      | exact (le_of_eq (advanceLC_tokens_length _ _)).trans
          (lexer_add_token_length_le _ _ _ ((le_of_eq (advanceLC_tokens_length _ _)).trans h))
  rw [if_neg h19]
  all_goals first
    | exact (le_of_eq (advanceLC_tokens_length _ _)).trans h
    | exact (le_of_eq (advanceLC_tokens_length _ _)).trans (lexer_add_token_length_le _ _ _ h)
    | exact lexer_add_token_length_le _ _ _ ((le_of_eq (advanceLC_tokens_length _ _)).trans h)
    | exact (le_of_eq (advanceLC_tokens_length _ _)).trans
        (lexer_add_token_length_le _ _ _ ((le_of_eq (advanceLC_tokens_length _ _)).trans h))


theorem advanceLC_lexerror : ∀ (cs : List Char) (st : LexState),
    advanceLC (lexerror st) cs = lexerror (advanceLC st cs) := by
  intro cs
  induction cs with
  | nil => intro st; rfl
  | cons c cs ih =>
    intro st
    rw [advanceLC, advanceLC]
    split
    · exact ih { st with line := st.line + 1, column := 1 }
    · exact ih { st with column := st.column + 1 }

theorem lexer_add_token_lexerror (st : LexState) (t : TokenType) (v : List Char) :
    lexer_add_token (lexerror st) t v = lexerror (lexer_add_token st t v) := by
  rw [lexer_add_token, lexer_add_token]
  split
  · split
    · rfl
    · rename_i hx hy
      exact absurd hx hy
  · split
    · rename_i hx hy
      exact absurd hy hx
    · rfl


/-- A recorded error commutes with one scan-loop iteration of `so_lang.c`:
the rest of the iteration behaves identically, only the flag stays set. -/
theorem soStep_lexerror (st : LexState) (c : Char) (rest : List Char) :
    soStep (lexerror st) c rest =
      (lexerror (soStep st c rest).1, (soStep st c rest).2) := by
  rw [soStep, soStep]
  by_cases h1 : soWsP c = true
  · rw [if_pos h1, if_pos h1]
    all_goals first
      | rfl
      | simp only [advanceLC_lexerror, lexer_add_token_lexerror]
  rw [if_neg h1, if_neg h1]
  by_cases h2 : c = '\n'
  · rw [if_pos h2, if_pos h2]
    all_goals first
      | rfl
      | simp only [advanceLC_lexerror, lexer_add_token_lexerror]
  rw [if_neg h2, if_neg h2]
  by_cases h3 : c = '"'
  · rw [if_pos h3, if_pos h3]
    by_cases hs : (rest.dropWhile (· ≠ '"')).headD '\x00' = '"'
    · rw [if_pos hs, if_pos hs]
      all_goals first
        | rfl
        | simp only [advanceLC_lexerror, lexer_add_token_lexerror]
    · rw [if_neg hs, if_neg hs]
      all_goals first
        | rfl
        | simp only [advanceLC_lexerror, lexer_add_token_lexerror]
  rw [if_neg h3, if_neg h3]
  by_cases h4 : (c_isalpha c || c = '_') = true
  · rw [if_pos h4, if_pos h4]
    all_goals first
      | rfl
      | simp only [advanceLC_lexerror, lexer_add_token_lexerror]
  rw [if_neg h4, if_neg h4]
  by_cases h5 : c_isdigit c = true
  · rw [if_pos h5, if_pos h5]
    all_goals first
      | rfl
      | simp only [advanceLC_lexerror, lexer_add_token_lexerror]
  rw [if_neg h5, if_neg h5]
  by_cases h6 : c = '='
  · rw [if_pos h6, if_pos h6]
    by_cases he : rest.headD '\x00' = '='
    · rw [if_pos he, if_pos he]
      all_goals first
        | rfl
        | simp only [advanceLC_lexerror, lexer_add_token_lexerror]
    · rw [if_neg he, if_neg he]
      all_goals first
        | rfl
        | simp only [advanceLC_lexerror, lexer_add_token_lexerror]
  rw [if_neg h6, if_neg h6]
  by_cases h7 : c = '+'
  · rw [if_pos h7, if_pos h7]
    all_goals first
      | rfl
      | simp only [advanceLC_lexerror, lexer_add_token_lexerror]
  rw [if_neg h7, if_neg h7]
  by_cases h8 : c = '-'
  · rw [if_pos h8, if_pos h8]
    all_goals first
      | rfl
      | simp only [advanceLC_lexerror, lexer_add_token_lexerror]
  rw [if_neg h8, if_neg h8]
  by_cases h9 : c = '*'
  · rw [if_pos h9, if_pos h9]
    all_goals first
      | rfl
      | simp only [advanceLC_lexerror, lexer_add_token_lexerror]
  rw [if_neg h9, if_neg h9]
  by_cases h10 : c = '/'
  · rw [if_pos h10, if_pos h10]
    all_goals first
      | rfl
      | simp only [advanceLC_lexerror, lexer_add_token_lexerror]
  rw [if_neg h10, if_neg h10]
  by_cases h11 : c = '<'
  · rw [if_pos h11, if_pos h11]
    all_goals first
      | rfl
      | simp only [advanceLC_lexerror, lexer_add_token_lexerror]
  rw [if_neg h11, if_neg h11]
  by_cases h12 : c = '>'
  · rw [if_pos h12, if_pos h12]
    all_goals first
      | rfl
      | simp only [advanceLC_lexerror, lexer_add_token_lexerror]
  rw [if_neg h12, if_neg h12]
  by_cases h13 : c = '('
  · rw [if_pos h13, if_pos h13]
    all_goals first
      | rfl
      | simp only [advanceLC_lexerror, lexer_add_token_lexerror]
  rw [if_neg h13, if_neg h13]
  by_cases h14 : c = ')'
  · rw [if_pos h14, if_pos h14]
    all_goals first
      | rfl
      | simp only [advanceLC_lexerror, lexer_add_token_lexerror]
  rw [if_neg h14, if_neg h14]
  by_cases h15 : c = '\x7b'
  · rw [if_pos h15, if_pos h15]
    all_goals first
      | rfl
      | simp only [advanceLC_lexerror, lexer_add_token_lexerror]
  rw [if_neg h15, if_neg h15]
  by_cases h16 : c = '\x7d'
  · rw [if_pos h16, if_pos h16]
    all_goals first
      | rfl
      | simp only [advanceLC_lexerror, lexer_add_token_lexerror]
  rw [if_neg h16, if_neg h16]
  by_cases h17 : c = ','
  · rw [if_pos h17, if_pos h17]
    all_goals first
      | rfl
      | simp only [advanceLC_lexerror, lexer_add_token_lexerror]
  rw [if_neg h17, if_neg h17]
  by_cases h18 : c = ';'
  · rw [if_pos h18, if_pos h18]
    all_goals first
      | rfl
      | simp only [advanceLC_lexerror, lexer_add_token_lexerror]
  rw [if_neg h18, if_neg h18]
  by_cases h19 : c = '@'
  · rw [if_pos h19, if_pos h19]
    all_goals first
      | rfl
      | simp only [advanceLC_lexerror, lexer_add_token_lexerror]
  rw [if_neg h19, if_neg h19]
  all_goals first
    | rfl
    | simp only [advanceLC_lexerror, lexer_add_token_lexerror]


/-- Membership in the token list after `lexer_add_token`: an old token, or
the freshly appended one, whose value was truncated to `MAX_TOKEN_LEN - 1`
characters. -/
theorem mem_lexer_add_token_cases {x : Token} (st : LexState) (t : TokenType) (v : List Char)
    (hx : x ∈ (lexer_add_token st t v).tokens) :
    x ∈ st.tokens ∨ x.value.length ≤ MAX_TOKEN_LEN - 1 := by
  rw [lexer_add_token] at hx
  split at hx
  · exact Or.inl hx
  · rcases List.mem_append.mp hx with hm | hm
    · exact Or.inl hm
    · right
      rw [List.mem_singleton] at hm
      subst hm
      show (String.mk (v.take (MAX_TOKEN_LEN - 1))).length ≤ MAX_TOKEN_LEN - 1
      show (v.take (MAX_TOKEN_LEN - 1)).length ≤ MAX_TOKEN_LEN - 1
      rw [List.length_take]
      omega


/-- Every token present after one scan-loop iteration of the enhanced lexer
was either already there or has a value of at most `MAX_TOKEN_LEN - 1`
characters. -/
theorem enStep_tokens_sub (st : LexState) (c : Char) (rest : List Char) :
    ∀ t ∈ (enStep st c rest).1.tokens,
      t ∈ st.tokens ∨ t.value.length ≤ MAX_TOKEN_LEN - 1 := by
  rw [enStep]
  by_cases g1 : soWsP c = true
  · rw [if_pos g1]
    all_goals intro t ht
    all_goals first
      | exact Or.inl (by rw [advanceLC_tokens] at ht; exact ht)
      | (rw [advanceLC_tokens] at ht
         rcases mem_lexer_add_token_cases _ _ _ ht with hx | hx
         · exact Or.inl (by first | exact hx | (rw [advanceLC_tokens] at hx; exact hx))
         · exact Or.inr hx)
      | (rcases mem_lexer_add_token_cases _ _ _ ht with hx | hx
         · exact Or.inl (by first | exact hx | (rw [advanceLC_tokens] at hx; exact hx))
         · exact Or.inr hx)
  rw [if_neg g1]
  by_cases g2 : (c = '/' && rest.headD '\x00' = '/') = true
  · rw [if_pos g2]
    all_goals intro t ht
    all_goals first
      | exact Or.inl (by rw [advanceLC_tokens] at ht; exact ht)
      | (rw [advanceLC_tokens] at ht
         rcases mem_lexer_add_token_cases _ _ _ ht with hx | hx
         · exact Or.inl (by first | exact hx | (rw [advanceLC_tokens] at hx; exact hx))
         · exact Or.inr hx)
      | (rcases mem_lexer_add_token_cases _ _ _ ht with hx | hx
         · exact Or.inl (by first | exact hx | (rw [advanceLC_tokens] at hx; exact hx))
         · exact Or.inr hx)
  rw [if_neg g2]
  by_cases g3 : c = '\n'
  · rw [if_pos g3]
    all_goals intro t ht
    all_goals first
      | exact Or.inl (by rw [advanceLC_tokens] at ht; exact ht)
      | (rw [advanceLC_tokens] at ht
         rcases mem_lexer_add_token_cases _ _ _ ht with hx | hx
         · exact Or.inl (by first | exact hx | (rw [advanceLC_tokens] at hx; exact hx))
         · exact Or.inr hx)
      | (rcases mem_lexer_add_token_cases _ _ _ ht with hx | hx
         · exact Or.inl (by first | exact hx | (rw [advanceLC_tokens] at hx; exact hx))
         · exact Or.inr hx)
  rw [if_neg g3]
  by_cases g4 : c = '"'
  · rw [if_pos g4]
    all_goals intro t ht
    all_goals first
      | exact Or.inl (by rw [advanceLC_tokens] at ht; exact ht)
      | (rw [advanceLC_tokens] at ht
         rcases mem_lexer_add_token_cases _ _ _ ht with hx | hx
         · exact Or.inl (by first | exact hx | (rw [advanceLC_tokens] at hx; exact hx))
         · exact Or.inr hx)
      | (rcases mem_lexer_add_token_cases _ _ _ ht with hx | hx
         · exact Or.inl (by first | exact hx | (rw [advanceLC_tokens] at hx; exact hx))
         · exact Or.inr hx)
  rw [if_neg g4]
  by_cases g5 : (c_isalpha c || c = '_') = true
  · rw [if_pos g5]
    all_goals intro t ht
    all_goals first
      | exact Or.inl (by rw [advanceLC_tokens] at ht; exact ht)
      | (rw [advanceLC_tokens] at ht
         rcases mem_lexer_add_token_cases _ _ _ ht with hx | hx
         · exact Or.inl (by first | exact hx | (rw [advanceLC_tokens] at hx; exact hx))
         · exact Or.inr hx)
      | (rcases mem_lexer_add_token_cases _ _ _ ht with hx | hx
         · exact Or.inl (by first | exact hx | (rw [advanceLC_tokens] at hx; exact hx))
         · exact Or.inr hx)
  rw [if_neg g5]
  by_cases g6 : c_isdigit c = true
  · rw [if_pos g6]
    all_goals intro t ht
    all_goals first
      | exact Or.inl (by rw [advanceLC_tokens] at ht; exact ht)
      | (rw [advanceLC_tokens] at ht
         rcases mem_lexer_add_token_cases _ _ _ ht with hx | hx
         · exact Or.inl (by first | exact hx | (rw [advanceLC_tokens] at hx; exact hx))
         · exact Or.inr hx)
      | (rcases mem_lexer_add_token_cases _ _ _ ht with hx | hx
         · exact Or.inl (by first | exact hx | (rw [advanceLC_tokens] at hx; exact hx))
         · exact Or.inr hx)
  rw [if_neg g6]
  by_cases g7 : c = '='
  · rw [if_pos g7]
    by_cases ge : rest.headD '\x00' = '='
    · rw [if_pos ge]
      all_goals intro t ht
      all_goals first
        | exact Or.inl (by rw [advanceLC_tokens] at ht; exact ht)
        | (rw [advanceLC_tokens] at ht
           rcases mem_lexer_add_token_cases _ _ _ ht with hx | hx
           · exact Or.inl (by first | exact hx | (rw [advanceLC_tokens] at hx; exact hx))
           · exact Or.inr hx)
        | (rcases mem_lexer_add_token_cases _ _ _ ht with hx | hx
           · exact Or.inl (by first | exact hx | (rw [advanceLC_tokens] at hx; exact hx))
           · exact Or.inr hx)
    · rw [if_neg ge]
      all_goals intro t ht
      all_goals first
        | exact Or.inl (by rw [advanceLC_tokens] at ht; exact ht)
        | (rw [advanceLC_tokens] at ht
           rcases mem_lexer_add_token_cases _ _ _ ht with hx | hx
           · exact Or.inl (by first | exact hx | (rw [advanceLC_tokens] at hx; exact hx))
           · exact Or.inr hx)
        | (rcases mem_lexer_add_token_cases _ _ _ ht with hx | hx
           · exact Or.inl (by first | exact hx | (rw [advanceLC_tokens] at hx; exact hx))
           · exact Or.inr hx)
  rw [if_neg g7]
  by_cases g8 : c = '+'
  · rw [if_pos g8]
    all_goals intro t ht
    all_goals first
      | exact Or.inl (by rw [advanceLC_tokens] at ht; exact ht)
      | (rw [advanceLC_tokens] at ht
         rcases mem_lexer_add_token_cases _ _ _ ht with hx | hx
         · exact Or.inl (by first | exact hx | (rw [advanceLC_tokens] at hx; exact hx))
         · exact Or.inr hx)
      | (rcases mem_lexer_add_token_cases _ _ _ ht with hx | hx
         · exact Or.inl (by first | exact hx | (rw [advanceLC_tokens] at hx; exact hx))
         · exact Or.inr hx)
  rw [if_neg g8]
  by_cases g9 : c = '-'
  · rw [if_pos g9]
    all_goals intro t ht
    all_goals first
      | exact Or.inl (by rw [advanceLC_tokens] at ht; exact ht)
      | (rw [advanceLC_tokens] at ht
         rcases mem_lexer_add_token_cases _ _ _ ht with hx | hx
         · exact Or.inl (by first | exact hx | (rw [advanceLC_tokens] at hx; exact hx))
         · exact Or.inr hx)
      | (rcases mem_lexer_add_token_cases _ _ _ ht with hx | hx
         · exact Or.inl (by first | exact hx | (rw [advanceLC_tokens] at hx; exact hx))
         · exact Or.inr hx)
  rw [if_neg g9]
  by_cases g10 : c = '*'
  · rw [if_pos g10]
    all_goals intro t ht
    all_goals first
      | exact Or.inl (by rw [advanceLC_tokens] at ht; exact ht)
      | (rw [advanceLC_tokens] at ht
         rcases mem_lexer_add_token_cases _ _ _ ht with hx | hx
         · exact Or.inl (by first | exact hx | (rw [advanceLC_tokens] at hx; exact hx))
         · exact Or.inr hx)
      | (rcases mem_lexer_add_token_cases _ _ _ ht with hx | hx
         · exact Or.inl (by first | exact hx | (rw [advanceLC_tokens] at hx; exact hx))
         · exact Or.inr hx)
  rw [if_neg g10]
  by_cases g11 : c = '/'
  · rw [if_pos g11]
    all_goals intro t ht
    all_goals first
      | exact Or.inl (by rw [advanceLC_tokens] at ht; exact ht)
      | (rw [advanceLC_tokens] at ht
         rcases mem_lexer_add_token_cases _ _ _ ht with hx | hx
         · exact Or.inl (by first | exact hx | (rw [advanceLC_tokens] at hx; exact hx))
         · exact Or.inr hx)
      | (rcases mem_lexer_add_token_cases _ _ _ ht with hx | hx
         · exact Or.inl (by first | exact hx | (rw [advanceLC_tokens] at hx; exact hx))
         · exact Or.inr hx)
  rw [if_neg g11]
  by_cases g12 : c = '<'
  · rw [if_pos g12]
    all_goals intro t ht
    all_goals first
      | exact Or.inl (by rw [advanceLC_tokens] at ht; exact ht)
      | (rw [advanceLC_tokens] at ht
         rcases mem_lexer_add_token_cases _ _ _ ht with hx | hx
         · exact Or.inl (by first | exact hx | (rw [advanceLC_tokens] at hx; exact hx))
         · exact Or.inr hx)
      | (rcases mem_lexer_add_token_cases _ _ _ ht with hx | hx
         · exact Or.inl (by first | exact hx | (rw [advanceLC_tokens] at hx; exact hx))
         · exact Or.inr hx)
  rw [if_neg g12]
  by_cases g13 : c = '>'
  · rw [if_pos g13]
    all_goals intro t ht
    all_goals first
      | exact Or.inl (by rw [advanceLC_tokens] at ht; exact ht)
      | (rw [advanceLC_tokens] at ht
         rcases mem_lexer_add_token_cases _ _ _ ht with hx | hx
         · exact Or.inl (by first | exact hx | (rw [advanceLC_tokens] at hx; exact hx))
         · exact Or.inr hx)
      | (rcases mem_lexer_add_token_cases _ _ _ ht with hx | hx
         · exact Or.inl (by first | exact hx | (rw [advanceLC_tokens] at hx; exact hx))
         · exact Or.inr hx)
  rw [if_neg g13]
  by_cases g14 : c = '('
  · rw [if_pos g14]
    all_goals intro t ht
    all_goals first
      | exact Or.inl (by rw [advanceLC_tokens] at ht; exact ht)
      | (rw [advanceLC_tokens] at ht
         rcases mem_lexer_add_token_cases _ _ _ ht with hx | hx
         · exact Or.inl (by first | exact hx | (rw [advanceLC_tokens] at hx; exact hx))
         · exact Or.inr hx)
      | (rcases mem_lexer_add_token_cases _ _ _ ht with hx | hx
         · exact Or.inl (by first | exact hx | (rw [advanceLC_tokens] at hx; exact hx))
         · exact Or.inr hx)
  rw [if_neg g14]
  by_cases g15 : c = ')'
  · rw [if_pos g15]
    all_goals intro t ht
    all_goals first
      | exact Or.inl (by rw [advanceLC_tokens] at ht; exact ht)
      | (rw [advanceLC_tokens] at ht
         rcases mem_lexer_add_token_cases _ _ _ ht with hx | hx
         · exact Or.inl (by first | exact hx | (rw [advanceLC_tokens] at hx; exact hx))
         · exact Or.inr hx)
      | (rcases mem_lexer_add_token_cases _ _ _ ht with hx | hx
         · exact Or.inl (by first | exact hx | (rw [advanceLC_tokens] at hx; exact hx))
         · exact Or.inr hx)
  rw [if_neg g15]
  by_cases g16 : c = '\x7b'
  · rw [if_pos g16]
    all_goals intro t ht
    all_goals first
      | exact Or.inl (by rw [advanceLC_tokens] at ht; exact ht)
      | (rw [advanceLC_tokens] at ht
         rcases mem_lexer_add_token_cases _ _ _ ht with hx | hx
         · exact Or.inl (by first | exact hx | (rw [advanceLC_tokens] at hx; exact hx))
         · exact Or.inr hx)
      | (rcases mem_lexer_add_token_cases _ _ _ ht with hx | hx
         · exact Or.inl (by first | exact hx | (rw [advanceLC_tokens] at hx; exact hx))
         · exact Or.inr hx)
  rw [if_neg g16]
  by_cases g17 : c = '\x7d'
  · rw [if_pos g17]
    all_goals intro t ht
    all_goals first
      | exact Or.inl (by rw [advanceLC_tokens] at ht; exact ht)
      | (rw [advanceLC_tokens] at ht
         rcases mem_lexer_add_token_cases _ _ _ ht with hx | hx
         · exact Or.inl (by first | exact hx | (rw [advanceLC_tokens] at hx; exact hx))
         · exact Or.inr hx)
      | (rcases mem_lexer_add_token_cases _ _ _ ht with hx | hx
         · exact Or.inl (by first | exact hx | (rw [advanceLC_tokens] at hx; exact hx))
         · exact Or.inr hx)
  rw [if_neg g17]
  by_cases g18 : c = ','
  · rw [if_pos g18]
    all_goals intro t ht
    all_goals first
      | exact Or.inl (by rw [advanceLC_tokens] at ht; exact ht)
      | (rw [advanceLC_tokens] at ht
         rcases mem_lexer_add_token_cases _ _ _ ht with hx | hx
         · exact Or.inl (by first | exact hx | (rw [advanceLC_tokens] at hx; exact hx))
         · exact Or.inr hx)
      | (rcases mem_lexer_add_token_cases _ _ _ ht with hx | hx
         · exact Or.inl (by first | exact hx | (rw [advanceLC_tokens] at hx; exact hx))
         · exact Or.inr hx)
  rw [if_neg g18]
  by_cases g19 : c = ';'
  · rw [if_pos g19]
    all_goals intro t ht
    all_goals first
      | exact Or.inl (by rw [advanceLC_tokens] at ht; exact ht)
      | (rw [advanceLC_tokens] at ht
         rcases mem_lexer_add_token_cases _ _ _ ht with hx | hx
         · exact Or.inl (by first | exact hx | (rw [advanceLC_tokens] at hx; exact hx))
         · exact Or.inr hx)
      | (rcases mem_lexer_add_token_cases _ _ _ ht with hx | hx
         · exact Or.inl (by first | exact hx | (rw [advanceLC_tokens] at hx; exact hx))
         · exact Or.inr hx)
  rw [if_neg g19]
  all_goals intro t ht
  all_goals first
    | exact Or.inl (by rw [advanceLC_tokens] at ht; exact ht)
    | (rw [advanceLC_tokens] at ht
       rcases mem_lexer_add_token_cases _ _ _ ht with hx | hx
       · exact Or.inl (by first | exact hx | (rw [advanceLC_tokens] at hx; exact hx))
       · exact Or.inr hx)
    | (rcases mem_lexer_add_token_cases _ _ _ ht with hx | hx
       · exact Or.inl (by first | exact hx | (rw [advanceLC_tokens] at hx; exact hx))
       · exact Or.inr hx)

/-- Any sufficient fuel runs `soTokenize` to the final `TOKEN_EOF` append,
and the token-count bound is preserved along the way. -/
theorem soTokenize_ends_eof : ∀ (fuel : Nat) (st : LexState) (input : List Char),
    input.length < fuel → st.tokens.length ≤ MAX_TOKENS →
    ∃ st', soTokenize fuel st input = lexer_add_token st' .TOKEN_EOF [] ∧
      st'.tokens.length ≤ MAX_TOKENS := by
  intro fuel
  induction fuel with
  | zero => intro st input h _; exact absurd h (by omega)
  | succ f ih =>
    intro st input hlen hbound
    cases input with
    | nil => exact ⟨st, rfl, hbound⟩
    | cons c rest =>
      rw [soTokenize]
      refine ih _ _ ?_ (soStep_tokens_le st c rest hbound)
      have := soStep_rest_le st c rest
      simp only [List.length_cons] at hlen
      omega

theorem nlToks_length : ∀ (n l : Nat), (nlToks n l).length = n := by
  intro n
  induction n with
  | zero => intro l; rfl
  | succ m ih => intro l; rw [nlToks]; simp only [List.length_cons, ih]

theorem nlToks_getLast : ∀ (n l : Nat),
    (nlToks (n + 1) l).getLast? = some ⟨.TOKEN_NEWLINE, "\n", l + n, 1⟩ := by
  intro n
  induction n with
  | zero => intro l; rfl
  | succ m ih =>
    intro l
    rw [nlToks, nlToks, List.getLast?_cons_cons,
      show (⟨.TOKEN_NEWLINE, "\n", l + 1, 1⟩ : Token) :: nlToks m (l + 1 + 1) =
        nlToks (m + 1) (l + 1) from rfl,
      ih (l + 1), show l + 1 + m = l + (m + 1) from by omega]

/-- Closed form of the `so_lang.c` lexer's run over `n` newline characters
(from column 1, error-free, enough capacity): one `TOKEN_NEWLINE` per
character, then the final EOF append. -/
theorem soTokenize_newlines : ∀ (n fuel l : Nat) (toks : List Token),
    n < fuel → toks.length + n ≤ MAX_TOKENS →
    soTokenize fuel ⟨l, 1, toks, false⟩ (List.replicate n '\n') =
      lexer_add_token ⟨l + n, 1, toks ++ nlToks n l, false⟩ .TOKEN_EOF [] := by
  intro n
  induction n with
  | zero =>
    intro fuel l toks hf _
    cases fuel with
    | zero => exact absurd hf (by omega)
    | succ f =>
      show soTokenize (f + 1) ⟨l, 1, toks, false⟩ [] = _
      rw [soTokenize, nlToks, List.append_nil]
      rfl
  | succ m ih =>
    intro fuel l toks hf hcap
    cases fuel with
    | zero => exact absurd hf (by omega)
    | succ f =>
      have hlt : ¬ ((⟨l, 1, toks, false⟩ : LexState).tokens.length ≥ MAX_TOKENS) := by
        simp only []
        omega
      have hadd : lexer_add_token ⟨l, 1, toks, false⟩ .TOKEN_NEWLINE ['\n'] =
          ⟨l, 1, toks ++ [⟨.TOKEN_NEWLINE, "\n", l, 1⟩], false⟩ := by
        rw [lexer_add_token, if_neg hlt]
        rfl
      have hstep : soStep ⟨l, 1, toks, false⟩ '\n' (List.replicate m '\n') =
          (⟨l + 1, 1, toks ++ [(⟨.TOKEN_NEWLINE, "\n", l, 1⟩ : Token)], false⟩,
           List.replicate m '\n') := by
        rw [soStep, if_neg (by decide), if_pos rfl, hadd]
        rfl
      have hih := ih f (l + 1) (toks ++ [(⟨.TOKEN_NEWLINE, "\n", l, 1⟩ : Token)]) (by omega)
        (by simp only [List.length_append, List.length_cons, List.length_nil]; omega)
      have hfin : lexer_add_token
          ⟨l + 1 + m, 1, (toks ++ [(⟨.TOKEN_NEWLINE, "\n", l, 1⟩ : Token)]) ++ nlToks m (l + 1),
            false⟩ .TOKEN_EOF [] =
          lexer_add_token ⟨l + (m + 1), 1, toks ++ nlToks (m + 1) l, false⟩ .TOKEN_EOF [] := by
        rw [List.append_assoc, show l + 1 + m = l + (m + 1) from by omega,
          show nlToks (m + 1) l = ⟨.TOKEN_NEWLINE, "\n", l, 1⟩ :: nlToks m (l + 1) from rfl]
        rfl
      rw [List.replicate_succ, soTokenize, hstep]
      exact hih.trans hfin

/-- Claim C7 (status: corrected), the amended statement.  The token list the
`so_lang.c` lexer produces is always finite, of length at most `MAX_TOKENS`;
its last token is the EOF token — *except* when the stream has already
reached the `MAX_TOKENS` cap, in which case the final EOF append is refused
by `lexer_add_token`: the list stays at exactly `MAX_TOKENS` entries whose
last token is whatever came 1000th, and the error flag is set. -/
theorem c7_token_stream_eof_terminated (src : List Char) :
    (lexSoLang src).tokens.length ≤ MAX_TOKENS ∧
    ((∃ t, (lexSoLang src).tokens.getLast? = some t ∧ t.type = .TOKEN_EOF) ∨
      ((lexSoLang src).tokens.length = MAX_TOKENS ∧ (lexSoLang src).hasError = true)) := by
  obtain ⟨st', heq, hle⟩ := soTokenize_ends_eof (src.length + 1) initLexState src
    (by omega) (by simp [initLexState])
  have heq' : lexSoLang src = lexer_add_token st' .TOKEN_EOF [] := heq
  by_cases hcap : st'.tokens.length ≥ MAX_TOKENS
  · have hm : st'.tokens.length = MAX_TOKENS := le_antisymm hle hcap
    rw [heq', lexer_add_token, if_pos hcap]
    exact ⟨le_of_eq hm, Or.inr ⟨hm, rfl⟩⟩
  · rw [heq', lexer_add_token, if_neg hcap]
    constructor
    · simp only [List.length_append, List.length_cons, List.length_nil]
      omega
    · exact Or.inl ⟨_, List.getLast?_concat _, rfl⟩

/-- Claim C7's counterexample to the original wording: on 1000 newline
characters the lexer's 1000-token capacity is exhausted by the newline
tokens, the EOF append is refused (setting the error flag), and the last
token of the stream is a `TOKEN_NEWLINE`, not EOF. -/
theorem c7_counterexample_cap_drops_eof :
    (lexSoLang (List.replicate MAX_TOKENS '\n')).tokens.length = MAX_TOKENS ∧
    (lexSoLang (List.replicate MAX_TOKENS '\n')).hasError = true ∧
    (lexSoLang (List.replicate MAX_TOKENS '\n')).tokens.getLast? =
      some ⟨.TOKEN_NEWLINE, "\n", MAX_TOKENS, 1⟩ := by
  have h := soTokenize_newlines MAX_TOKENS ((List.replicate MAX_TOKENS '\n').length + 1) 1 []
    (by rw [List.length_replicate]; omega) (by simp)
  have hlex : lexSoLang (List.replicate MAX_TOKENS '\n') =
      lexer_add_token ⟨1 + MAX_TOKENS, 1, [] ++ nlToks MAX_TOKENS 1, false⟩ .TOKEN_EOF [] := h
  have hcap : (([] ++ nlToks MAX_TOKENS 1 : List Token)).length ≥ MAX_TOKENS := by
    rw [List.nil_append, nlToks_length]
  rw [hlex, lexer_add_token, if_pos hcap]
  refine ⟨?_, rfl, ?_⟩
  · show (([] ++ nlToks MAX_TOKENS 1 : List Token)).length = MAX_TOKENS
    rw [List.nil_append, nlToks_length]
  · show (([] ++ nlToks MAX_TOKENS 1 : List Token)).getLast? = _
    rw [List.nil_append, show (MAX_TOKENS : Nat) = 999 + 1 from by decide,
      nlToks_getLast]

/-! ## Claim C8: lexical errors and the pipeline -/

/-- A recorded error commutes with the whole scan: the lexer scans the very
same input either way, producing the same tokens and positions; only the
flag stays set. -/
theorem soTokenize_lexerror : ∀ (fuel : Nat) (st : LexState) (input : List Char),
    soTokenize fuel (lexerror st) input = lexerror (soTokenize fuel st input) := by
  intro fuel
  induction fuel with
  | zero => intro st input; rfl
  | succ f ih =>
    intro st input
    cases input with
    | nil => exact lexer_add_token_lexerror _ _ _
    | cons c rest =>
      rw [soTokenize, soTokenize, soStep_lexerror]
      exact ih _ _

/-- Claim C8 (status: confirmed).  A recorded lexical error is not fatal to
scanning: `soTokenize` commutes with setting the error flag, so the rest of
the input is scanned identically and scanning runs to the end regardless of
recorded errors.  It is fatal to the pipeline: whenever the lexer ends with
the error flag set, `main` frees everything and returns exit code 1 before
`parser_create` — the parser is never invoked. -/
theorem c8_lexical_error_nonfatal_to_scanning_fatal_to_pipeline :
    (∀ (fuel : Nat) (st : LexState) (input : List Char),
      soTokenize fuel (lexerror st) input = lexerror (soTokenize fuel st input)) ∧
    (∀ (src : List Char) (fuel : Nat), (lexSoLang src).hasError = true →
      so_lang_main fuel src = some ⟨1, false⟩) := by
  refine ⟨soTokenize_lexerror, ?_⟩
  intro src fuel h
  simp [so_lang_main, h]

/-- Witness for claim C8's theorem at the source `?` (an unrecognized
character): the lexer records the error and `main` exits 1 with the parser
never invoked. -/
theorem c8_witness :
    (lexSoLang "?".data).hasError = true ∧
    so_lang_main 5 "?".data = some ⟨1, false⟩ := by
  have h : (lexSoLang "?".data).hasError = true := by decide
  exact ⟨h, c8_lexical_error_nonfatal_to_scanning_fatal_to_pipeline.2 "?".data 5 h⟩

/-! ## Claim C10: token values are truncated to 255 characters -/

/-- The token-value bound is an invariant of the whole enhanced-lexer run. -/
theorem enTokenize_value_bound : ∀ (fuel : Nat) (st : LexState) (input : List Char),
    (∀ t ∈ st.tokens, t.value.length ≤ MAX_TOKEN_LEN - 1) →
    ∀ t ∈ (enTokenize fuel st input).tokens, t.value.length ≤ MAX_TOKEN_LEN - 1 := by
  intro fuel
  induction fuel with
  | zero => intro st input h; exact h
  | succ f ih =>
    intro st input hinv
    cases input with
    | nil =>
      intro t ht
      rcases mem_lexer_add_token_cases _ _ _ ht with h | h
      · exact hinv t h
      · exact h
    | cons c rest =>
      rw [enTokenize]
      refine ih _ _ ?_
      intro t ht
      rcases enStep_tokens_sub st c rest t ht with h | h
      · exact hinv t h
      · exact h

/-- Claim C10 (status: confirmed).  Every token the enhanced lexer emits has
a value of at most `MAX_TOKEN_LEN - 1 = 255` characters: identifiers,
numbers and strings with longer source spellings are silently truncated to
their first 255 characters by the `strncpy` bound in `lexer_add_token` (and
the read loops' own buffer bounds), not rejected and not reported as an
error; the token keeps its kind. -/
theorem c10_token_values_at_most_255 (src : List Char) (t : Token)
    (ht : t ∈ (lexEnhanced src).tokens) : t.value.length ≤ MAX_TOKEN_LEN - 1 := by
  refine enTokenize_value_bound (src.length + 1) initLexState src ?_ t ht
  intro x hx
  simp [initLexState] at hx

/-- Witness for claim C10's theorem: 300 `a`s lex (without any error) to an
identifier token of exactly the first 255 `a`s, within the bound. -/
theorem c10_witness :
    (⟨.TOKEN_IDENTIFIER, String.mk (List.replicate 255 'a'), 1, 301⟩ : Token) ∈
      (lexEnhanced (List.replicate 300 'a')).tokens ∧
    (lexEnhanced (List.replicate 300 'a')).hasError = false ∧
    (String.mk (List.replicate 255 'a')).length ≤ MAX_TOKEN_LEN - 1 := by
  have hm : (⟨.TOKEN_IDENTIFIER, String.mk (List.replicate 255 'a'), 1, 301⟩ : Token) ∈
      (lexEnhanced (List.replicate 300 'a')).tokens := by
    set_option maxRecDepth 8000 in decide
  exact ⟨hm, by set_option maxRecDepth 8000 in decide,
    c10_token_values_at_most_255 (List.replicate 300 'a') _ hm⟩

end SoLang
